import Mathlib

/-!
Shallow embedding of the traffic-light simulation and speed-suggestion
engine of `src/app.py` (the "Traffic Light Simulation" module), together
with theorems settling the frozen claims about it.

Python floats are modelled as exact rationals (`ℚ`), Python ints as `ℤ`
(or `ℕ` for the advice counter, which only ever counts up from 0/1).
The language-level infinity `float('inf')` used for the ETA of a
stationary vehicle is modelled by a dedicated constructor of an `Eta`
type.  Runtime randomness (`random.randint`, `random.random`,
`datetime.now`) is modelled by explicit per-tick inputs.
-/

namespace TrafficSim

/-- Signal phase: one of red, green, yellow (src/app.py lines 58, 87-95). -/
inductive Phase
  | red
  | green
  | yellow
  deriving DecidableEq, Repr

/-- The fixed transition cycle red → green → yellow → red implemented by the
timer-update block (src/app.py lines 87-95). -/
def cycleNext : Phase → Phase
  | .red => .green
  | .green => .yellow
  | .yellow => .red

/-- Raw/stable advice labels produced by the suggestion logic
(src/app.py lines 104, 152, 157, 162, 178). -/
inductive Advice
  | maintain
  | speedUp
  | slowDown
  deriving DecidableEq, Repr

/-- Displayed predicted phase: a concrete phase, or the dash placeholder
`"-"` used before any signal is ahead (src/app.py line 107). -/
inductive PredPhase
  | dash
  | ph (p : Phase)
  deriving DecidableEq, Repr

/-- Labels of the five traffic signals (src/app.py line 53). -/
inductive Lab
  | B
  | C
  | D
  | E
  | F
  deriving DecidableEq, Repr, Fintype

/-- Fixed route positions of the five signals (src/app.py line 52). -/
def sigX : Lab → ℚ
  | .B => 150
  | .C => 350
  | .D => 550
  | .E => 750
  | .F => 950

/-- Mutable part of one traffic signal: its phase and remaining timer
(src/app.py line 60; the position is fixed and kept in `sigX`). -/
structure SigSt where
  phase : Phase
  timer : ℤ
  deriving DecidableEq, Repr

/-- The states of all five signals (the `signal_states` dict,
src/app.py line 54). -/
structure Sigs where
  sB : SigSt
  sC : SigSt
  sD : SigSt
  sE : SigSt
  sF : SigSt
  deriving DecidableEq, Repr

/-- Look up one signal's state by label. -/
def getSig (g : Sigs) : Lab → SigSt
  | .B => g.sB
  | .C => g.sC
  | .D => g.sD
  | .E => g.sE
  | .F => g.sF

/-- One tick of one signal's timer/phase state machine
(src/app.py lines 84-95): decrement the timer; when it reaches ≤ 0,
transition red → green (timer 45), green → yellow (timer 5),
yellow → red (timer `r`, the value `random.randint(30, 60)` drawn for
this signal this tick). -/
def advanceSig (r : ℤ) (s : SigSt) : SigSt :=
  let t := s.timer - 1
  if t ≤ 0 then
    match s.phase with
    | .red => ⟨.green, 45⟩
    | .green => ⟨.yellow, 5⟩
    | .yellow => ⟨.red, r⟩
  else ⟨s.phase, t⟩

/-- Advance every signal one tick (the `for sig in signal_states.values()`
loop, src/app.py lines 84-95); `rt` supplies each signal's red-duration
resample for this tick. -/
def advanceAll (rt : Lab → ℤ) (g : Sigs) : Sigs :=
  ⟨advanceSig (rt .B) g.sB, advanceSig (rt .C) g.sC, advanceSig (rt .D) g.sD,
   advanceSig (rt .E) g.sE, advanceSig (rt .F) g.sF⟩

/-- First signal strictly ahead of route position `x`
(src/app.py lines 98-102: scan labels in order, pick the first whose
position exceeds `car_x`; positions are the fixed constants of `sigX`). -/
def nextSignal (x : ℚ) : Option Lab :=
  if x < 150 then some .B
  else if x < 350 then some .C
  else if x < 550 then some .D
  else if x < 750 then some .E
  else if x < 950 then some .F
  else none

/-- Estimated time of arrival: a finite number of seconds, or the
`float('inf')` sentinel used when the vehicle is stationary
(src/app.py lines 105, 114-117). -/
inductive Eta
  | inf
  | fin (q : ℚ)
  deriving DecidableEq, Repr

/-- Comparison `eta <= c` as in Python: infinity is not ≤ any rational. -/
def Eta.leB : Eta → ℚ → Bool
  | .inf, _ => false
  | .fin q, c => decide (q ≤ c)

/-- Subtraction `eta - c` as in Python: infinity minus a finite value is
infinity. -/
def Eta.sub : Eta → ℚ → Eta
  | .inf, _ => .inf
  | .fin q, c => .fin (q - c)

/-- The phase-prediction block (src/app.py lines 119-148): if the residual
`eta` fits inside the current phase's remaining `timeLeft`, predict the
current phase; otherwise subtract `timeLeft` and compare the remainder
against the hard-coded window bounds of the two subsequent phases, with
the final `else` of each branch yielding the third phase. -/
def predictPhase (phase : Phase) (timeLeft : ℤ) (eta : Eta) : Phase :=
  if eta.leB (timeLeft : ℚ) then phase
  else
    let rem := eta.sub (timeLeft : ℚ)
    match phase with
    | .red => if rem.leB 45 then .green else if rem.leB 50 then .yellow else .red
    | .green => if rem.leB 5 then .yellow else if rem.leB (5 + 40) then .red else .green
    | .yellow => if rem.leB 40 then .red else if rem.leB (40 + 45) then .green else .yellow

/-- Modelled from the spec (not present in src/app.py): the nominal
planning durations the specification's predictor walk uses for phases
after the current one — Green 45, Yellow 5, Red 40. -/
def planDur : Phase → ℚ
  | .red => 40
  | .green => 45
  | .yellow => 5

/-- Modelled from the spec (not present in src/app.py): the predictor walk
of the specification — starting at phase `p` with residual `r`, return `p`
if `r` fits within `p`'s planning duration, otherwise subtract that
duration and continue with the next phase of the cycle, repeating the
cycle indefinitely. -/
def specWalk (p : Phase) (r : ℚ) : Phase :=
  if h : r ≤ planDur p then p
  else specWalk (cycleNext p) (r - planDur p)
termination_by (⌈r⌉).toNat
decreasing_by
  push_neg at h
  obtain ⟨d, hd, hd5⟩ : ∃ d : ℤ, planDur p = (d : ℚ) ∧ 5 ≤ d := by
    cases p
    · exact ⟨40, by norm_num [planDur], by norm_num⟩
    · exact ⟨45, by norm_num [planDur], by norm_num⟩
    · exact ⟨5, by norm_num [planDur], by norm_num⟩
  rw [hd] at h ⊢
  have h1 : (⌈r - (d : ℚ)⌉ : ℤ) = ⌈r⌉ - d := Int.ceil_sub_int r d
  have h2 : d < ⌈r⌉ := Int.lt_ceil.mpr h
  omega

/-- The green-phase branch of the speed suggestion logic
(src/app.py lines 155-165): below max speed, suggest Speed Up and — when
this tick's `random.random() < 0.7` draw (`coin`) succeeds — add 5 km/h
clamped to the max; otherwise, above min speed, suggest Slow Down and on
a successful draw subtract 5 km/h clamped to the min; otherwise leave the
suggestion at Maintain. -/
def greenAdjust (minS maxS v : ℚ) (coin : Bool) : Advice × ℚ :=
  if v < maxS then (.speedUp, if coin then min (v + 5) maxS else v)
  else if minS < v then (.slowDown, if coin then max (v - 5) minS else v)
  else (.maintain, v)

/-- Modelled from the spec (not present in src/app.py): the proportional
control law the specification attributes to the green-phase controller —
`error = timeRemainingInGreen − eta`, `deltaSpeed = Kp × error × scale`,
`newSpeed = clamp(currentSpeed − deltaSpeed, minSpeed, maxSpeed)`, raw
suggestion Speed Up iff the new speed exceeds the current one, else
Slow Down. -/
def specPropLaw (kp scale timeRem eta v minS maxS : ℚ) : Advice × ℚ :=
  let error := timeRem - eta
  let deltaSpeed := kp * error * scale
  let newSpeed := max (min (v - deltaSpeed) maxS) minS
  (if v < newSpeed then .speedUp else .slowDown, newSpeed)

/-- One step of the advice-smoothing state (src/app.py lines 173-177):
the pair is the stored `current_advice_obj2` and `advice_counter_obj2`;
an unchanged raw suggestion increments the counter, a changed one resets
it to 1. -/
def adviceStep (s : Advice × ℕ) (raw : Advice) : Advice × ℕ :=
  if raw = s.1 then (s.1, s.2 + 1) else (raw, 1)

/-- The surfaced stable suggestion (src/app.py line 178): the stored
advice once its run length reaches 2, otherwise Maintain. -/
def stableOf (s : Advice × ℕ) : Advice :=
  if 2 ≤ s.2 then s.1 else .maintain

/-- Stable suggestions surfaced while feeding a list of raw suggestions
through the smoothing state, starting from state `s`. -/
def stableSeq (s : Advice × ℕ) : List Advice → List Advice
  | [] => []
  | r :: rs => stableOf (adviceStep s r) :: stableSeq (adviceStep s r) rs

/-- Alert-gating state: the predicted phase recorded at the last fired
alert (`prev_predicted_phase_obj2`) and its timestamp
(`last_voice_time_obj2`), both initially `None` (src/app.py lines 69-75). -/
structure AlertSt where
  prevPred : Option PredPhase
  lastTime : Option ℚ
  deriving DecidableEq, Repr

/-- The debounce helper `should_trigger_voice` (src/app.py lines 28-34):
true when no alert ever fired, or when at least `5` seconds separate
`now` from the last fired alert. -/
def shouldTrigger (last : Option ℚ) (now : ℚ) : Bool :=
  match last with
  | none => true
  | some t => decide (5 ≤ now - t)

/-- The voice-alert firing condition (src/app.py line 199): the predicted
phase differs from the recorded one and the debounce window has passed. -/
def alertFired (s : AlertSt) (pred : PredPhase) (now : ℚ) : Bool :=
  decide (s.prevPred ≠ some pred) && shouldTrigger s.lastTime now

/-- The voice-alert trigger (src/app.py lines 199, 217-218): fire per
`alertFired`; on fire, record the new predicted phase and the current
time. -/
def alertStep (s : AlertSt) (pred : PredPhase) (now : ℚ) : Bool × AlertSt :=
  (alertFired s pred now,
   if alertFired s pred now then ⟨some pred, some now⟩ else s)

/-- Timestamps of the alerts that fire while feeding a list of
(predicted phase, timestamp) pairs through the alert state. -/
def fireTimes (s : AlertSt) : List (PredPhase × ℚ) → List ℚ
  | [] => []
  | e :: rest =>
    let r := alertStep s e.1 e.2
    if r.1 then e.2 :: fireTimes r.2 rest else fireTimes r.2 rest

/-- The alert state at simulation start (src/app.py lines 69-75). -/
def alertInit : AlertSt := ⟨none, none⟩

/-- The three sidebar speed parameters (src/app.py lines 44-46); each
slider ranges over [10, 60]. -/
structure Config where
  sim_initial_speed : ℚ
  sim_min_speed : ℚ
  sim_max_speed : ℚ
  deriving DecidableEq, Repr

/-- Full per-tick mutable state of the simulation loop: the signals, the
car position/speed, the label of the signal being waited at (`waiting_at`),
the smoothing state and the alert state (src/app.py lines 54-75). -/
structure SimState where
  sigs : Sigs
  car_x : ℚ
  car_speed : ℚ
  waiting_at : Option Lab
  current_advice : Advice
  advice_counter : ℕ
  prev_predicted : Option PredPhase
  last_voice_time : Option ℚ
  deriving DecidableEq, Repr

/-- The runtime randomness consumed by one tick: each signal's
`random.randint(30, 60)` red-duration resample, the `random.random() < 0.7`
draw of the green branch, and the wall-clock `datetime.now()` reading. -/
structure TickIn where
  redT : Lab → ℤ
  coin : Bool
  now : ℚ

/-- Per-tick telemetry displayed/announced by the loop: the raw
suggestion, the stable suggestion, the predicted phase and whether the
voice alert fired. -/
structure Telem where
  suggestion : Advice
  stable : Advice
  pred : PredPhase
  fired : Bool
  deriving DecidableEq, Repr

/-- Output of the suggestion block: raw suggestion, car speed, waiting
label and displayed predicted phase. -/
structure SugOut where
  sug : Advice
  v : ℚ
  w : Option Lab
  pred : PredPhase
  deriving DecidableEq, Repr

/-- The next-signal / prediction / speed-suggestion block
(src/app.py lines 97-165), evaluated against the already-advanced signal
states `g`: with no signal ahead the defaults stand (Maintain, dash);
otherwise compute distance and ETA (infinite when stationary), predict
the arrival phase, and then stop at a close red signal, adjust under a
green one, or keep everything unchanged. -/
def suggestionStep (cfg : Config) (g : Sigs) (x v : ℚ) (w : Option Lab)
    (coin : Bool) : SugOut :=
  match nextSignal x with
  | none => ⟨.maintain, v, w, .dash⟩
  | some L =>
    let sg := getSig g L
    let distance := sigX L - x
    let eta : Eta := if 0 < v then .fin (distance / (v * (1 / 10))) else .inf
    let pred := PredPhase.ph (predictPhase sg.phase sg.timer eta)
    if sg.phase = .red ∧ distance ≤ 40 then ⟨.slowDown, 0, some L, pred⟩
    else if sg.phase = .green then
      let gv := greenAdjust cfg.sim_min_speed cfg.sim_max_speed v coin
      ⟨gv.1, gv.2, w, pred⟩
    else ⟨.maintain, v, w, pred⟩

/-- The resume-after-red block (src/app.py lines 167-170): when waiting at
a signal whose phase is now green, clear the wait and set the fixed resume
speed of 15 km/h. -/
def resumeStep (g : Sigs) (v : ℚ) (w : Option Lab) : ℚ × Option Lab :=
  match w with
  | some L => if (getSig g L).phase = .green then (15, none) else (v, w)
  | none => (v, w)

/-- One full iteration of the simulation loop (src/app.py lines 82-218),
in source order: advance all signal timers; run the next-signal /
prediction / suggestion block; resume after red; smooth the advice; move
the car when its speed is positive; evaluate the voice-alert trigger. -/
def tick (cfg : Config) (st : SimState) (inp : TickIn) : SimState × Telem :=
  let g := advanceAll inp.redT st.sigs
  let so := suggestionStep cfg g st.car_x st.car_speed st.waiting_at inp.coin
  let rs := resumeStep g so.v so.w
  let ac := adviceStep (st.current_advice, st.advice_counter) so.sug
  let x2 := if 0 < rs.1 then st.car_x + rs.1 * (1 / 10) else st.car_x
  let al := alertStep ⟨st.prev_predicted, st.last_voice_time⟩ so.pred inp.now
  (⟨g, x2, rs.1, rs.2, ac.1, ac.2, al.2.prevPred, al.2.lastTime⟩,
   ⟨so.sug, stableOf ac, so.pred, al.1⟩)

/-- Iterate the simulation loop `n` ticks from state `st`, drawing the
`i`-th tick's randomness from `ins i`. -/
def run (cfg : Config) : SimState → (ℕ → TickIn) → ℕ → SimState
  | st, _, 0 => st
  | st, ins, n + 1 => run cfg (tick cfg st (ins 0)).1 (fun i => ins (i + 1)) n

/-- The `init_traffic_lights` setup (src/app.py lines 56-61): each signal
gets a random phase `ph` and, unless that phase is yellow, a random
`random.randint(10, 45)` timer `tm`; a yellow signal starts with timer 5. -/
def init_traffic_lights (ph : Lab → Phase) (tm : Lab → ℤ) : Sigs :=
  let mk : Lab → SigSt := fun L =>
    ⟨ph L, if ph L ≠ .yellow then tm L else 5⟩
  ⟨mk .B, mk .C, mk .D, mk .E, mk .F⟩

/-- The initial simulation state (src/app.py lines 56-75): randomized
signals, car at position 0 with the slider's initial speed, not waiting,
advice Maintain with counter 0, no alert recorded. -/
def initState (cfg : Config) (ph : Lab → Phase) (tm : Lab → ℤ) : SimState :=
  ⟨init_traffic_lights ph tm, 0, cfg.sim_initial_speed, none, .maintain, 0,
   none, none⟩

/-- Duration installed by the timer-update block when a signal enters a
new phase (src/app.py lines 89, 92, 95): 45 for green, 5 for yellow, and
this tick's resample `r` for red. -/
def newDur (r : ℤ) : Phase → ℤ
  | .green => 45
  | .yellow => 5
  | .red => r

/-- Invariant tying the `waiting_at` marker to the rest of the state: a
waiting car is stationary, the signal it waits at is the next signal
ahead of it, and that signal is (still) red. -/
def WaitInv (st : SimState) : Prop :=
  ∀ L, st.waiting_at = some L →
    st.car_speed = 0 ∧ nextSignal st.car_x = some L ∧
    (getSig st.sigs L).phase = Phase.red

/-- Speed-range invariant of claim C3: the speed lies in
`[sim_min_speed, sim_max_speed]` while moving, together with the waiting
invariant. -/
def SpeedInv (cfg : Config) (st : SimState) : Prop :=
  (st.waiting_at = none →
    cfg.sim_min_speed ≤ st.car_speed ∧ st.car_speed ≤ cfg.sim_max_speed) ∧
  WaitInv st

/-- Every tick's red-duration resamples lie in the `random.randint(30, 60)`
range (src/app.py line 95). -/
def ValidIns (ins : ℕ → TickIn) : Prop :=
  ∀ i L, 30 ≤ (ins i).redT L ∧ (ins i).redT L ≤ 60

/-- Timer invariant maintained by the timer-update block: every timer is
at least 1 between ticks, and a red signal's timer is at most 60. -/
def TimerInv (g : Sigs) : Prop :=
  ∀ L, 1 ≤ (getSig g L).timer ∧
    ((getSig g L).phase = Phase.red → (getSig g L).timer ≤ 60)

/-- Reachable-state invariant used for the termination claim: nonnegative
position, speed at least 10 while moving, the waiting invariant and the
timer invariant. -/
def RunInv (st : SimState) : Prop :=
  0 ≤ st.car_x ∧
  (st.waiting_at = none → 10 ≤ st.car_speed) ∧
  WaitInv st ∧
  TimerInv st.sigs

/-- Configuration with both speed-bound sliders at 10 km/h or above (the
sliders of src/app.py lines 45-46 only produce values in [10, 60]). -/
def CfgTen (cfg : Config) : Prop :=
  10 ≤ cfg.sim_min_speed ∧ 10 ≤ cfg.sim_max_speed

/-- Configuration for the C3 counterexample run: initial speed 60, min
speed 20, max speed 60 — all reachable slider values, and satisfying
`min ≤ initial ≤ max`. -/
def c3Cfg : Config := ⟨60, 20, 60⟩

/-- Initial state for the C3 counterexample run: every signal red with
(valid) initial timer 45. -/
def c3St : SimState := initState c3Cfg (fun _ => Phase.red) (fun _ => 45)

/-- Per-tick input of the C3 counterexample run: red resamples 30, the
green-branch draw always failing, constant clock reading 0. -/
def c3In : TickIn := ⟨fun _ => 30, false, 0⟩

/-! ## Helper lemmas -/

theorem getSig_advanceAll (rt : Lab → ℤ) (g : Sigs) (L : Lab) :
    getSig (advanceAll rt g) L = advanceSig (rt L) (getSig g L) := by
  cases L <;> rfl

theorem run_const_succ (cfg : Config) (st : SimState) (inp : TickIn) (n : ℕ) :
    run cfg st (fun _ => inp) (n + 1) =
      run cfg (tick cfg st inp).1 (fun _ => inp) n := rfl

theorem phase_ne_rg : (Phase.red = Phase.green) = False := by decide
theorem phase_ne_ry : (Phase.red = Phase.yellow) = False := by decide
theorem phase_ne_gr : (Phase.green = Phase.red) = False := by decide
theorem phase_ne_gy : (Phase.green = Phase.yellow) = False := by decide
theorem phase_ne_yr : (Phase.yellow = Phase.red) = False := by decide
theorem phase_ne_yg : (Phase.yellow = Phase.green) = False := by decide
theorem advice_ne_ms : (Advice.maintain = Advice.speedUp) = False := by decide
theorem advice_ne_md : (Advice.maintain = Advice.slowDown) = False := by decide
theorem advice_ne_sm : (Advice.speedUp = Advice.maintain) = False := by decide
theorem advice_ne_sd : (Advice.speedUp = Advice.slowDown) = False := by decide
theorem advice_ne_dm : (Advice.slowDown = Advice.maintain) = False := by decide
theorem advice_ne_ds : (Advice.slowDown = Advice.speedUp) = False := by decide
theorem opt_none_some_pp (x : PredPhase) :
    ((none : Option PredPhase) = some x) = False := by simp
theorem opt_some_none_pp (x : PredPhase) :
    ((some x : Option PredPhase) = none) = False := by simp
theorem predphase_ph_inj (a b : Phase) :
    (PredPhase.ph a = PredPhase.ph b) = (a = b) := by simp

theorem specWalk_fit (p : Phase) (r : ℚ) (h : r ≤ planDur p) :
    specWalk p r = p := by
  rw [specWalk.eq_def, dif_pos h]

theorem specWalk_over (p : Phase) (r : ℚ) (h : planDur p < r) :
    specWalk p r = specWalk (cycleNext p) (r - planDur p) := by
  rw [specWalk.eq_def, dif_neg (not_le.mpr h)]

/-! ## Claims -/

/-- C4: for every current phase, timer and eta with `eta ≤ timer` (in
particular eta finite), the phase-prediction block returns exactly the
signal's current phase (src/app.py lines 123-124). -/
theorem C4_predict_current (phase : Phase) (timeLeft : ℤ) (eta : Eta)
    (h : eta.leB (timeLeft : ℚ) = true) :
    predictPhase phase timeLeft eta = phase := by
  unfold predictPhase
  rw [h]
  simp

/-- Witness for C4 at phase green, timer 20, eta 10. -/
theorem C4_witness : predictPhase Phase.green 20 (Eta.fin 10) = Phase.green :=
  C4_predict_current Phase.green 20 (Eta.fin 10) (by decide)

/-- C8: for every signal and tick (with the red resample in [30, 60]),
after the timer update the timer is nonnegative, the phase either stays
or moves one step along the fixed cycle red → green → yellow → red, and
whenever the phase changed the timer was reset to the new phase's
duration (green 45, yellow 5, red resampled). -/
theorem C8_signal_step (g : Sigs) (rt : Lab → ℤ) (L : Lab)
    (h30 : 30 ≤ rt L) (h60 : rt L ≤ 60) :
    0 ≤ (getSig (advanceAll rt g) L).timer ∧
    ((getSig (advanceAll rt g) L).phase = (getSig g L).phase ∨
      (getSig (advanceAll rt g) L).phase = cycleNext (getSig g L).phase) ∧
    ((getSig (advanceAll rt g) L).phase ≠ (getSig g L).phase →
      (getSig (advanceAll rt g) L).phase = cycleNext (getSig g L).phase ∧
      (getSig (advanceAll rt g) L).timer =
        newDur (rt L) (getSig (advanceAll rt g) L).phase) := by
  rw [getSig_advanceAll]
  rcases hs : getSig g L with ⟨p, t⟩
  unfold advanceSig
  dsimp only
  split_ifs with ht
  · cases p <;> simp [cycleNext, newDur] <;> omega
  · simp
    omega

/-- Witness for C8 at a yellow signal with timer 1 and resample 40. -/
theorem C8_witness :
    0 ≤ (getSig (advanceAll (fun _ => 40) ⟨⟨Phase.yellow, 1⟩, ⟨Phase.yellow, 1⟩,
          ⟨Phase.yellow, 1⟩, ⟨Phase.yellow, 1⟩, ⟨Phase.yellow, 1⟩⟩) Lab.B).timer :=
  (C8_signal_step ⟨⟨Phase.yellow, 1⟩, ⟨Phase.yellow, 1⟩, ⟨Phase.yellow, 1⟩,
    ⟨Phase.yellow, 1⟩, ⟨Phase.yellow, 1⟩⟩ (fun _ => 40) Lab.B
    (by norm_num) (by norm_num)).1

/-- C6: the smoothing step always stores the current raw suggestion, the
surfaced stable suggestion is that raw value when the run counter has
reached 2 and Maintain otherwise; a raw suggestion differing from the
stored one (a fresh, single-tick value) yields the neutral Maintain, so a
one-tick flicker is never surfaced as advice; and from the initial state
the raw sequence [SpeedUp, SpeedUp, SlowDown] produces the stable
sequence [Maintain, SpeedUp, Maintain] (src/app.py lines 172-178). -/
theorem C6_smoothing :
    (∀ (s : Advice × ℕ) (r : Advice), (adviceStep s r).1 = r ∧
      stableOf (adviceStep s r) =
        (if 2 ≤ (adviceStep s r).2 then r else Advice.maintain)) ∧
    (∀ (s : Advice × ℕ) (r : Advice), r ≠ s.1 →
      stableOf (adviceStep s r) = Advice.maintain) ∧
    stableSeq (Advice.maintain, 0)
        [Advice.speedUp, Advice.speedUp, Advice.slowDown] =
      [Advice.maintain, Advice.speedUp, Advice.maintain] := by
  refine ⟨fun s r => ?_, fun s r h => ?_, by decide⟩
  · by_cases h : r = s.1 <;> simp [adviceStep, stableOf, h]
  · simp [adviceStep, stableOf, h]

/-- Witness for C6's flicker clause: a fresh SlowDown after a SpeedUp run
of length 3 surfaces Maintain. -/
theorem C6_witness :
    stableOf (adviceStep (Advice.speedUp, 3) Advice.slowDown) =
      Advice.maintain :=
  C6_smoothing.2.1 (Advice.speedUp, 3) Advice.slowDown (by decide)

/-- C1 counterexample: at current phase red, timer 10 and eta 110 the
residual is 100, which exceeds one full planning cycle (45 + 5 + 40 = 90);
the claim's cycle-repeating walk predicts Green again, but the prediction
block of src/app.py lines 125-132 falls into its final `else` and
predicts Red. -/
theorem C1_cex :
    predictPhase Phase.red 10 (Eta.fin 110) = Phase.red ∧
    specWalk (cycleNext Phase.red) ((110 : ℚ) - 10) = Phase.green := by
  constructor
  · norm_num [predictPhase, Eta.leB, Eta.sub]
  · have e0 : ((110 : ℚ) - 10) = 100 := by norm_num
    have e1 : cycleNext Phase.red = Phase.green := rfl
    rw [e0, e1]
    have s1 : specWalk Phase.green 100 = specWalk Phase.yellow 55 := by
      have t1 := specWalk_over Phase.green 100 (by norm_num [planDur])
      norm_num [cycleNext, planDur] at t1
      exact t1
    have s2 : specWalk Phase.yellow 55 = specWalk Phase.red 50 := by
      have t2 := specWalk_over Phase.yellow 55 (by norm_num [planDur])
      norm_num [cycleNext, planDur] at t2
      exact t2
    have s3 : specWalk Phase.red 50 = specWalk Phase.green 10 := by
      have t3 := specWalk_over Phase.red 50 (by norm_num [planDur])
      norm_num [cycleNext, planDur] at t3
      exact t3
    have s4 : specWalk Phase.green 10 = Phase.green :=
      specWalk_fit Phase.green 10 (by norm_num [planDur])
    rw [s1, s2, s3, s4]

/-- C1 (amended): for eta exceeding the timer, the prediction block walks
the post-current-phase cycle with the planning durations Green 45,
Yellow 5, Red 40 — but only through one full cycle: when the residual
`eta − timer` is at most 90 it agrees with the specification's walk, and
when the residual exceeds one full cycle the block returns the current
phase unchanged instead of repeating the cycle. -/
theorem C1_predict_walk (phase : Phase) (timeLeft : ℤ) (q : ℚ)
    (h : (timeLeft : ℚ) < q) :
    (q - timeLeft ≤ 90 →
      predictPhase phase timeLeft (Eta.fin q) =
        specWalk (cycleNext phase) (q - timeLeft)) ∧
    (90 < q - timeLeft →
      predictPhase phase timeLeft (Eta.fin q) = phase) := by
  have hq : ¬ (q ≤ (timeLeft : ℚ)) := not_le.mpr h
  set r : ℚ := q - (timeLeft : ℚ) with hr
  cases phase
  case red =>
    simp only [predictPhase, Eta.leB, Eta.sub, decide_eq_true_eq, cycleNext,
      if_neg hq]
    simp only [← hr]
    constructor
    · intro h90
      split_ifs with h45 h50
      · exact (specWalk_fit Phase.green r (by simp only [planDur]; linarith)).symm
      · rw [specWalk_over Phase.green r (by simp only [planDur]; linarith)]
        exact (specWalk_fit _ _ (by simp only [cycleNext, planDur]; linarith)).symm
      · rw [specWalk_over Phase.green r (by simp only [planDur]; linarith),
          specWalk_over _ _ (by simp only [cycleNext, planDur]; linarith)]
        exact (specWalk_fit _ _ (by simp only [cycleNext, planDur]; linarith)).symm
    · intro h90
      split_ifs with h45 h50
      · exact absurd h45 (by linarith)
      · exact absurd h50 (by linarith)
      · rfl
  case green =>
    simp only [predictPhase, Eta.leB, Eta.sub, decide_eq_true_eq, cycleNext,
      if_neg hq]
    simp only [← hr]
    constructor
    · intro h90
      split_ifs with h5 h45
      · exact (specWalk_fit Phase.yellow r (by simp only [planDur]; linarith)).symm
      · rw [specWalk_over Phase.yellow r (by simp only [planDur]; linarith)]
        exact (specWalk_fit _ _ (by simp only [cycleNext, planDur]; linarith)).symm
      · rw [specWalk_over Phase.yellow r (by simp only [planDur]; linarith),
          specWalk_over _ _ (by simp only [cycleNext, planDur]; linarith)]
        exact (specWalk_fit _ _ (by simp only [cycleNext, planDur]; linarith)).symm
    · intro h90
      split_ifs with h5 h45
      · exact absurd h5 (by linarith)
      · exact absurd h45 (by linarith)
      · rfl
  case yellow =>
    simp only [predictPhase, Eta.leB, Eta.sub, decide_eq_true_eq, cycleNext,
      if_neg hq]
    simp only [← hr]
    constructor
    · intro h90
      split_ifs with h40 h85
      · exact (specWalk_fit Phase.red r (by simp only [planDur]; linarith)).symm
      · rw [specWalk_over Phase.red r (by simp only [planDur]; linarith)]
        exact (specWalk_fit _ _ (by simp only [cycleNext, planDur]; linarith)).symm
      · rw [specWalk_over Phase.red r (by simp only [planDur]; linarith),
          specWalk_over _ _ (by simp only [cycleNext, planDur]; linarith)]
        exact (specWalk_fit _ _ (by simp only [cycleNext, planDur]; linarith)).symm
    · intro h90
      split_ifs with h40 h85
      · exact absurd h40 (by linarith)
      · exact absurd h85 (by linarith)
      · rfl

/-- Witness for C1 (amended) at the spec's concrete scenario — red, timer
10, eta 50, residual 40: the block agrees with the walk, whose value is
Green. -/
theorem C1_witness :
    predictPhase Phase.red 10 (Eta.fin 50) =
      specWalk (cycleNext Phase.red) ((50 : ℚ) - 10) ∧
    specWalk (cycleNext Phase.red) ((50 : ℚ) - 10) = Phase.green :=
  ⟨(C1_predict_walk Phase.red 10 50 (by norm_num)).1 (by norm_num),
   by
    have e0 : ((50 : ℚ) - 10) = 40 := by norm_num
    have e1 : cycleNext Phase.red = Phase.green := rfl
    rw [e0, e1, specWalk_fit Phase.green 40 (by norm_num [planDur])]⟩

/-- C2 counterexample: with minSpeed 10, maxSpeed 60, current speed 25,
coin success, timeRemainingInGreen 45 and eta 5, the claimed proportional
law (gains Kp = 1, scale = 1) has error 40 and yields SlowDown with new
speed clamp(25 − 40) = 10, while the green-phase branch of
src/app.py lines 155-165 — which never reads the error or eta — yields
SpeedUp with new speed 30. -/
theorem C2_cex :
    greenAdjust 10 60 25 true = (Advice.speedUp, 30) ∧
    specPropLaw 1 1 45 5 25 10 60 = (Advice.slowDown, 10) := by
  constructor
  · norm_num [greenAdjust]
  · norm_num [specPropLaw]

/-- C2 (amended): while Moving with the upcoming signal Green, the
controller applies no proportional law; the raw suggestion and new speed
come from the probabilistic bang-bang rule of src/app.py lines 155-165:
below max speed the suggestion is SpeedUp (speed +5 clamped to max on a
successful 0.7 draw), otherwise above min speed it is SlowDown (speed −5
clamped to min on a successful draw), otherwise Maintain with no change;
the green time remaining and the eta are never consulted. -/
theorem C2_green_branch (cfg : Config) (st : SimState) (inp : TickIn)
    (L : Lab) (hw : st.waiting_at = none)
    (hns : nextSignal st.car_x = some L)
    (hg : (getSig (advanceAll inp.redT st.sigs) L).phase = Phase.green) :
    (tick cfg st inp).2.suggestion =
      (greenAdjust cfg.sim_min_speed cfg.sim_max_speed st.car_speed inp.coin).1 ∧
    (tick cfg st inp).1.car_speed =
      (greenAdjust cfg.sim_min_speed cfg.sim_max_speed st.car_speed inp.coin).2 ∧
    (st.car_speed < cfg.sim_max_speed →
      (tick cfg st inp).2.suggestion = Advice.speedUp ∧
      (tick cfg st inp).1.car_speed =
        (if inp.coin then min (st.car_speed + 5) cfg.sim_max_speed
         else st.car_speed)) ∧
    (¬ st.car_speed < cfg.sim_max_speed → cfg.sim_min_speed < st.car_speed →
      (tick cfg st inp).2.suggestion = Advice.slowDown ∧
      (tick cfg st inp).1.car_speed =
        (if inp.coin then max (st.car_speed - 5) cfg.sim_min_speed
         else st.car_speed)) ∧
    (¬ st.car_speed < cfg.sim_max_speed → ¬ cfg.sim_min_speed < st.car_speed →
      (tick cfg st inp).2.suggestion = Advice.maintain ∧
      (tick cfg st inp).1.car_speed = st.car_speed) := by
  have hnr : ¬ ((getSig (advanceAll inp.redT st.sigs) L).phase = Phase.red ∧
      sigX L - st.car_x ≤ 40) := by
    simp [hg]
  simp only [tick, suggestionStep, hns, hg, if_neg hnr, if_pos rfl]
  simp only [resumeStep, hw]
  refine ⟨rfl, rfl, fun hlt => ?_, fun hge hgt => ?_, fun hge hle => ?_⟩
  · simp [greenAdjust, hlt]
  · simp [greenAdjust, hge, hgt]
  · simp [greenAdjust, hge, hle]

/-- Witness for C2 (amended): a concrete Moving state before signal B,
which is green after the timer update; speed 25 below max 60 gives
SpeedUp. -/
theorem C2_witness :
    (tick ⟨25, 10, 60⟩
        ⟨⟨⟨Phase.green, 30⟩, ⟨Phase.green, 30⟩, ⟨Phase.green, 30⟩,
          ⟨Phase.green, 30⟩, ⟨Phase.green, 30⟩⟩, 0, 25, none,
          Advice.maintain, 0, none, none⟩
        ⟨fun _ => 30, true, 0⟩).2.suggestion =
      (greenAdjust 10 60 25 true).1 :=
  (C2_green_branch ⟨25, 10, 60⟩
    ⟨⟨⟨Phase.green, 30⟩, ⟨Phase.green, 30⟩, ⟨Phase.green, 30⟩,
      ⟨Phase.green, 30⟩, ⟨Phase.green, 30⟩⟩, 0, 25, none,
      Advice.maintain, 0, none, none⟩
    ⟨fun _ => 30, true, 0⟩ Lab.B rfl (by norm_num [nextSignal]) rfl).1

/-- C9 counterexample: the slider configuration min 60, max 10,
initial 25 violates `minSpeed ≤ maxSpeed` (and
`minSpeed ≤ initialSpeed`), yet the simulation state is constructed and
the first tick runs, moving the car from 0 to 5/2 — the code
(src/app.py lines 44-66) has no validation or configuration-error path. -/
theorem C9_cex :
    ¬ ((⟨25, 60, 10⟩ : Config).sim_min_speed ≤
        (⟨25, 60, 10⟩ : Config).sim_max_speed) ∧
    (tick ⟨25, 60, 10⟩
        (initState ⟨25, 60, 10⟩ (fun _ => Phase.red) (fun _ => 45))
        ⟨fun _ => 30, false, 0⟩).1.car_x = 5 / 2 := by
  constructor
  · norm_num
  · norm_num [tick, initState, init_traffic_lights, advanceAll, advanceSig,
      suggestionStep, nextSignal, resumeStep, getSig, sigX, greenAdjust,
      adviceStep, stableOf, alertStep, alertFired, shouldTrigger, predictPhase, Eta.leB,
      Eta.sub, phase_ne_rg, phase_ne_ry, phase_ne_gr, phase_ne_gy,
      phase_ne_yr, phase_ne_yg, advice_ne_ms, advice_ne_md, advice_ne_sm,
      advice_ne_sd, advice_ne_dm, advice_ne_ds, opt_none_some_pp,
      opt_some_none_pp, predphase_ph_inj, Option.some.injEq]

/-- C9 (amended): initialization performs no validation and rejects
nothing — for every configuration, including those with
`minSpeed > maxSpeed` or `initialSpeed` outside `[minSpeed, maxSpeed]`,
the full simulation state is constructed (car at 0 with the configured
initial speed, not waiting) and ticks run on it; the signal positions are
hardcoded, strictly increasing and nonempty, and no configuration-error
mechanism exists in the code. -/
theorem C9_no_validation :
    (∀ (cfg : Config) (ph : Lab → Phase) (tm : Lab → ℤ),
      (initState cfg ph tm).car_x = 0 ∧
      (initState cfg ph tm).car_speed = cfg.sim_initial_speed ∧
      (initState cfg ph tm).waiting_at = none) ∧
    (tick ⟨25, 60, 10⟩
        (initState ⟨25, 60, 10⟩ (fun _ => Phase.red) (fun _ => 45))
        ⟨fun _ => 30, false, 0⟩).1.car_x = 5 / 2 := by
  constructor
  · exact fun cfg ph tm => ⟨rfl, rfl, rfl⟩
  · norm_num [tick, initState, init_traffic_lights, advanceAll, advanceSig,
      suggestionStep, nextSignal, resumeStep, getSig, sigX, greenAdjust,
      adviceStep, stableOf, alertStep, alertFired, shouldTrigger, predictPhase, Eta.leB,
      Eta.sub, phase_ne_rg, phase_ne_ry, phase_ne_gr, phase_ne_gy,
      phase_ne_yr, phase_ne_yg, advice_ne_ms, advice_ne_md, advice_ne_sm,
      advice_ne_sd, advice_ne_dm, advice_ne_ds, opt_none_some_pp,
      opt_some_none_pp, predphase_ph_inj, Option.some.injEq]

/-! ## The C3 counterexample run, tick by tick

The vehicle starts at speed 60 with min speed 20 and max speed 60 (a
valid slider configuration with `min ≤ initial ≤ max`), approaches
signal B (red, initial timer 45), stops at tick 20 at position 114, waits
through ticks 21-44, and at tick 45 signal B turns green and the vehicle
resumes — at the fixed resume speed 15, below the configured minimum 20.
Each `c3Step` lemma evaluates one tick of the loop on explicit states. -/

theorem c3Step0 : (tick c3Cfg (⟨⟨⟨Phase.red, 45⟩, ⟨Phase.red, 45⟩, ⟨Phase.red, 45⟩, ⟨Phase.red, 45⟩, ⟨Phase.red, 45⟩⟩, 0, 60, none, Advice.maintain, 0, none, none⟩ : SimState) c3In).1 = (⟨⟨⟨Phase.red, 44⟩, ⟨Phase.red, 44⟩, ⟨Phase.red, 44⟩, ⟨Phase.red, 44⟩, ⟨Phase.red, 44⟩⟩, 6, 60, none, Advice.maintain, 1, some (PredPhase.ph Phase.red), some (0)⟩ : SimState) := by
  norm_num [tick, advanceAll, advanceSig, suggestionStep, nextSignal,
    resumeStep, getSig, sigX, greenAdjust, adviceStep, stableOf, alertStep, alertFired,
    shouldTrigger, predictPhase, Eta.leB, Eta.sub, c3Cfg, c3In, phase_ne_rg,
    phase_ne_ry, phase_ne_gr, phase_ne_gy, phase_ne_yr, phase_ne_yg,
    advice_ne_ms, advice_ne_md, advice_ne_sm, advice_ne_sd, advice_ne_dm,
    advice_ne_ds, opt_none_some_pp, opt_some_none_pp, predphase_ph_inj,
    Option.some.injEq]

theorem c3Step1 : (tick c3Cfg (⟨⟨⟨Phase.red, 44⟩, ⟨Phase.red, 44⟩, ⟨Phase.red, 44⟩, ⟨Phase.red, 44⟩, ⟨Phase.red, 44⟩⟩, 6, 60, none, Advice.maintain, 1, some (PredPhase.ph Phase.red), some (0)⟩ : SimState) c3In).1 = (⟨⟨⟨Phase.red, 43⟩, ⟨Phase.red, 43⟩, ⟨Phase.red, 43⟩, ⟨Phase.red, 43⟩, ⟨Phase.red, 43⟩⟩, 12, 60, none, Advice.maintain, 2, some (PredPhase.ph Phase.red), some (0)⟩ : SimState) := by
  norm_num [tick, advanceAll, advanceSig, suggestionStep, nextSignal,
    resumeStep, getSig, sigX, greenAdjust, adviceStep, stableOf, alertStep, alertFired,
    shouldTrigger, predictPhase, Eta.leB, Eta.sub, c3Cfg, c3In, phase_ne_rg,
    phase_ne_ry, phase_ne_gr, phase_ne_gy, phase_ne_yr, phase_ne_yg,
    advice_ne_ms, advice_ne_md, advice_ne_sm, advice_ne_sd, advice_ne_dm,
    advice_ne_ds, opt_none_some_pp, opt_some_none_pp, predphase_ph_inj,
    Option.some.injEq]

theorem c3Step2 : (tick c3Cfg (⟨⟨⟨Phase.red, 43⟩, ⟨Phase.red, 43⟩, ⟨Phase.red, 43⟩, ⟨Phase.red, 43⟩, ⟨Phase.red, 43⟩⟩, 12, 60, none, Advice.maintain, 2, some (PredPhase.ph Phase.red), some (0)⟩ : SimState) c3In).1 = (⟨⟨⟨Phase.red, 42⟩, ⟨Phase.red, 42⟩, ⟨Phase.red, 42⟩, ⟨Phase.red, 42⟩, ⟨Phase.red, 42⟩⟩, 18, 60, none, Advice.maintain, 3, some (PredPhase.ph Phase.red), some (0)⟩ : SimState) := by
  norm_num [tick, advanceAll, advanceSig, suggestionStep, nextSignal,
    resumeStep, getSig, sigX, greenAdjust, adviceStep, stableOf, alertStep, alertFired,
    shouldTrigger, predictPhase, Eta.leB, Eta.sub, c3Cfg, c3In, phase_ne_rg,
    phase_ne_ry, phase_ne_gr, phase_ne_gy, phase_ne_yr, phase_ne_yg,
    advice_ne_ms, advice_ne_md, advice_ne_sm, advice_ne_sd, advice_ne_dm,
    advice_ne_ds, opt_none_some_pp, opt_some_none_pp, predphase_ph_inj,
    Option.some.injEq]

theorem c3Step3 : (tick c3Cfg (⟨⟨⟨Phase.red, 42⟩, ⟨Phase.red, 42⟩, ⟨Phase.red, 42⟩, ⟨Phase.red, 42⟩, ⟨Phase.red, 42⟩⟩, 18, 60, none, Advice.maintain, 3, some (PredPhase.ph Phase.red), some (0)⟩ : SimState) c3In).1 = (⟨⟨⟨Phase.red, 41⟩, ⟨Phase.red, 41⟩, ⟨Phase.red, 41⟩, ⟨Phase.red, 41⟩, ⟨Phase.red, 41⟩⟩, 24, 60, none, Advice.maintain, 4, some (PredPhase.ph Phase.red), some (0)⟩ : SimState) := by
  norm_num [tick, advanceAll, advanceSig, suggestionStep, nextSignal,
    resumeStep, getSig, sigX, greenAdjust, adviceStep, stableOf, alertStep, alertFired,
    shouldTrigger, predictPhase, Eta.leB, Eta.sub, c3Cfg, c3In, phase_ne_rg,
    phase_ne_ry, phase_ne_gr, phase_ne_gy, phase_ne_yr, phase_ne_yg,
    advice_ne_ms, advice_ne_md, advice_ne_sm, advice_ne_sd, advice_ne_dm,
    advice_ne_ds, opt_none_some_pp, opt_some_none_pp, predphase_ph_inj,
    Option.some.injEq]

theorem c3Step4 : (tick c3Cfg (⟨⟨⟨Phase.red, 41⟩, ⟨Phase.red, 41⟩, ⟨Phase.red, 41⟩, ⟨Phase.red, 41⟩, ⟨Phase.red, 41⟩⟩, 24, 60, none, Advice.maintain, 4, some (PredPhase.ph Phase.red), some (0)⟩ : SimState) c3In).1 = (⟨⟨⟨Phase.red, 40⟩, ⟨Phase.red, 40⟩, ⟨Phase.red, 40⟩, ⟨Phase.red, 40⟩, ⟨Phase.red, 40⟩⟩, 30, 60, none, Advice.maintain, 5, some (PredPhase.ph Phase.red), some (0)⟩ : SimState) := by
  norm_num [tick, advanceAll, advanceSig, suggestionStep, nextSignal,
    resumeStep, getSig, sigX, greenAdjust, adviceStep, stableOf, alertStep, alertFired,
    shouldTrigger, predictPhase, Eta.leB, Eta.sub, c3Cfg, c3In, phase_ne_rg,
    phase_ne_ry, phase_ne_gr, phase_ne_gy, phase_ne_yr, phase_ne_yg,
    advice_ne_ms, advice_ne_md, advice_ne_sm, advice_ne_sd, advice_ne_dm,
    advice_ne_ds, opt_none_some_pp, opt_some_none_pp, predphase_ph_inj,
    Option.some.injEq]

theorem c3Step5 : (tick c3Cfg (⟨⟨⟨Phase.red, 40⟩, ⟨Phase.red, 40⟩, ⟨Phase.red, 40⟩, ⟨Phase.red, 40⟩, ⟨Phase.red, 40⟩⟩, 30, 60, none, Advice.maintain, 5, some (PredPhase.ph Phase.red), some (0)⟩ : SimState) c3In).1 = (⟨⟨⟨Phase.red, 39⟩, ⟨Phase.red, 39⟩, ⟨Phase.red, 39⟩, ⟨Phase.red, 39⟩, ⟨Phase.red, 39⟩⟩, 36, 60, none, Advice.maintain, 6, some (PredPhase.ph Phase.red), some (0)⟩ : SimState) := by
  norm_num [tick, advanceAll, advanceSig, suggestionStep, nextSignal,
    resumeStep, getSig, sigX, greenAdjust, adviceStep, stableOf, alertStep, alertFired,
    shouldTrigger, predictPhase, Eta.leB, Eta.sub, c3Cfg, c3In, phase_ne_rg,
    phase_ne_ry, phase_ne_gr, phase_ne_gy, phase_ne_yr, phase_ne_yg,
    advice_ne_ms, advice_ne_md, advice_ne_sm, advice_ne_sd, advice_ne_dm,
    advice_ne_ds, opt_none_some_pp, opt_some_none_pp, predphase_ph_inj,
    Option.some.injEq]

theorem c3Step6 : (tick c3Cfg (⟨⟨⟨Phase.red, 39⟩, ⟨Phase.red, 39⟩, ⟨Phase.red, 39⟩, ⟨Phase.red, 39⟩, ⟨Phase.red, 39⟩⟩, 36, 60, none, Advice.maintain, 6, some (PredPhase.ph Phase.red), some (0)⟩ : SimState) c3In).1 = (⟨⟨⟨Phase.red, 38⟩, ⟨Phase.red, 38⟩, ⟨Phase.red, 38⟩, ⟨Phase.red, 38⟩, ⟨Phase.red, 38⟩⟩, 42, 60, none, Advice.maintain, 7, some (PredPhase.ph Phase.red), some (0)⟩ : SimState) := by
  norm_num [tick, advanceAll, advanceSig, suggestionStep, nextSignal,
    resumeStep, getSig, sigX, greenAdjust, adviceStep, stableOf, alertStep, alertFired,
    shouldTrigger, predictPhase, Eta.leB, Eta.sub, c3Cfg, c3In, phase_ne_rg,
    phase_ne_ry, phase_ne_gr, phase_ne_gy, phase_ne_yr, phase_ne_yg,
    advice_ne_ms, advice_ne_md, advice_ne_sm, advice_ne_sd, advice_ne_dm,
    advice_ne_ds, opt_none_some_pp, opt_some_none_pp, predphase_ph_inj,
    Option.some.injEq]

theorem c3Step7 : (tick c3Cfg (⟨⟨⟨Phase.red, 38⟩, ⟨Phase.red, 38⟩, ⟨Phase.red, 38⟩, ⟨Phase.red, 38⟩, ⟨Phase.red, 38⟩⟩, 42, 60, none, Advice.maintain, 7, some (PredPhase.ph Phase.red), some (0)⟩ : SimState) c3In).1 = (⟨⟨⟨Phase.red, 37⟩, ⟨Phase.red, 37⟩, ⟨Phase.red, 37⟩, ⟨Phase.red, 37⟩, ⟨Phase.red, 37⟩⟩, 48, 60, none, Advice.maintain, 8, some (PredPhase.ph Phase.red), some (0)⟩ : SimState) := by
  norm_num [tick, advanceAll, advanceSig, suggestionStep, nextSignal,
    resumeStep, getSig, sigX, greenAdjust, adviceStep, stableOf, alertStep, alertFired,
    shouldTrigger, predictPhase, Eta.leB, Eta.sub, c3Cfg, c3In, phase_ne_rg,
    phase_ne_ry, phase_ne_gr, phase_ne_gy, phase_ne_yr, phase_ne_yg,
    advice_ne_ms, advice_ne_md, advice_ne_sm, advice_ne_sd, advice_ne_dm,
    advice_ne_ds, opt_none_some_pp, opt_some_none_pp, predphase_ph_inj,
    Option.some.injEq]

theorem c3Step8 : (tick c3Cfg (⟨⟨⟨Phase.red, 37⟩, ⟨Phase.red, 37⟩, ⟨Phase.red, 37⟩, ⟨Phase.red, 37⟩, ⟨Phase.red, 37⟩⟩, 48, 60, none, Advice.maintain, 8, some (PredPhase.ph Phase.red), some (0)⟩ : SimState) c3In).1 = (⟨⟨⟨Phase.red, 36⟩, ⟨Phase.red, 36⟩, ⟨Phase.red, 36⟩, ⟨Phase.red, 36⟩, ⟨Phase.red, 36⟩⟩, 54, 60, none, Advice.maintain, 9, some (PredPhase.ph Phase.red), some (0)⟩ : SimState) := by
  norm_num [tick, advanceAll, advanceSig, suggestionStep, nextSignal,
    resumeStep, getSig, sigX, greenAdjust, adviceStep, stableOf, alertStep, alertFired,
    shouldTrigger, predictPhase, Eta.leB, Eta.sub, c3Cfg, c3In, phase_ne_rg,
    phase_ne_ry, phase_ne_gr, phase_ne_gy, phase_ne_yr, phase_ne_yg,
    advice_ne_ms, advice_ne_md, advice_ne_sm, advice_ne_sd, advice_ne_dm,
    advice_ne_ds, opt_none_some_pp, opt_some_none_pp, predphase_ph_inj,
    Option.some.injEq]

theorem c3Step9 : (tick c3Cfg (⟨⟨⟨Phase.red, 36⟩, ⟨Phase.red, 36⟩, ⟨Phase.red, 36⟩, ⟨Phase.red, 36⟩, ⟨Phase.red, 36⟩⟩, 54, 60, none, Advice.maintain, 9, some (PredPhase.ph Phase.red), some (0)⟩ : SimState) c3In).1 = (⟨⟨⟨Phase.red, 35⟩, ⟨Phase.red, 35⟩, ⟨Phase.red, 35⟩, ⟨Phase.red, 35⟩, ⟨Phase.red, 35⟩⟩, 60, 60, none, Advice.maintain, 10, some (PredPhase.ph Phase.red), some (0)⟩ : SimState) := by
  norm_num [tick, advanceAll, advanceSig, suggestionStep, nextSignal,
    resumeStep, getSig, sigX, greenAdjust, adviceStep, stableOf, alertStep, alertFired,
    shouldTrigger, predictPhase, Eta.leB, Eta.sub, c3Cfg, c3In, phase_ne_rg,
    phase_ne_ry, phase_ne_gr, phase_ne_gy, phase_ne_yr, phase_ne_yg,
    advice_ne_ms, advice_ne_md, advice_ne_sm, advice_ne_sd, advice_ne_dm,
    advice_ne_ds, opt_none_some_pp, opt_some_none_pp, predphase_ph_inj,
    Option.some.injEq]

theorem c3Step10 : (tick c3Cfg (⟨⟨⟨Phase.red, 35⟩, ⟨Phase.red, 35⟩, ⟨Phase.red, 35⟩, ⟨Phase.red, 35⟩, ⟨Phase.red, 35⟩⟩, 60, 60, none, Advice.maintain, 10, some (PredPhase.ph Phase.red), some (0)⟩ : SimState) c3In).1 = (⟨⟨⟨Phase.red, 34⟩, ⟨Phase.red, 34⟩, ⟨Phase.red, 34⟩, ⟨Phase.red, 34⟩, ⟨Phase.red, 34⟩⟩, 66, 60, none, Advice.maintain, 11, some (PredPhase.ph Phase.red), some (0)⟩ : SimState) := by
  norm_num [tick, advanceAll, advanceSig, suggestionStep, nextSignal,
    resumeStep, getSig, sigX, greenAdjust, adviceStep, stableOf, alertStep, alertFired,
    shouldTrigger, predictPhase, Eta.leB, Eta.sub, c3Cfg, c3In, phase_ne_rg,
    phase_ne_ry, phase_ne_gr, phase_ne_gy, phase_ne_yr, phase_ne_yg,
    advice_ne_ms, advice_ne_md, advice_ne_sm, advice_ne_sd, advice_ne_dm,
    advice_ne_ds, opt_none_some_pp, opt_some_none_pp, predphase_ph_inj,
    Option.some.injEq]

theorem c3Step11 : (tick c3Cfg (⟨⟨⟨Phase.red, 34⟩, ⟨Phase.red, 34⟩, ⟨Phase.red, 34⟩, ⟨Phase.red, 34⟩, ⟨Phase.red, 34⟩⟩, 66, 60, none, Advice.maintain, 11, some (PredPhase.ph Phase.red), some (0)⟩ : SimState) c3In).1 = (⟨⟨⟨Phase.red, 33⟩, ⟨Phase.red, 33⟩, ⟨Phase.red, 33⟩, ⟨Phase.red, 33⟩, ⟨Phase.red, 33⟩⟩, 72, 60, none, Advice.maintain, 12, some (PredPhase.ph Phase.red), some (0)⟩ : SimState) := by
  norm_num [tick, advanceAll, advanceSig, suggestionStep, nextSignal,
    resumeStep, getSig, sigX, greenAdjust, adviceStep, stableOf, alertStep, alertFired,
    shouldTrigger, predictPhase, Eta.leB, Eta.sub, c3Cfg, c3In, phase_ne_rg,
    phase_ne_ry, phase_ne_gr, phase_ne_gy, phase_ne_yr, phase_ne_yg,
    advice_ne_ms, advice_ne_md, advice_ne_sm, advice_ne_sd, advice_ne_dm,
    advice_ne_ds, opt_none_some_pp, opt_some_none_pp, predphase_ph_inj,
    Option.some.injEq]

theorem c3Step12 : (tick c3Cfg (⟨⟨⟨Phase.red, 33⟩, ⟨Phase.red, 33⟩, ⟨Phase.red, 33⟩, ⟨Phase.red, 33⟩, ⟨Phase.red, 33⟩⟩, 72, 60, none, Advice.maintain, 12, some (PredPhase.ph Phase.red), some (0)⟩ : SimState) c3In).1 = (⟨⟨⟨Phase.red, 32⟩, ⟨Phase.red, 32⟩, ⟨Phase.red, 32⟩, ⟨Phase.red, 32⟩, ⟨Phase.red, 32⟩⟩, 78, 60, none, Advice.maintain, 13, some (PredPhase.ph Phase.red), some (0)⟩ : SimState) := by
  norm_num [tick, advanceAll, advanceSig, suggestionStep, nextSignal,
    resumeStep, getSig, sigX, greenAdjust, adviceStep, stableOf, alertStep, alertFired,
    shouldTrigger, predictPhase, Eta.leB, Eta.sub, c3Cfg, c3In, phase_ne_rg,
    phase_ne_ry, phase_ne_gr, phase_ne_gy, phase_ne_yr, phase_ne_yg,
    advice_ne_ms, advice_ne_md, advice_ne_sm, advice_ne_sd, advice_ne_dm,
    advice_ne_ds, opt_none_some_pp, opt_some_none_pp, predphase_ph_inj,
    Option.some.injEq]

theorem c3Step13 : (tick c3Cfg (⟨⟨⟨Phase.red, 32⟩, ⟨Phase.red, 32⟩, ⟨Phase.red, 32⟩, ⟨Phase.red, 32⟩, ⟨Phase.red, 32⟩⟩, 78, 60, none, Advice.maintain, 13, some (PredPhase.ph Phase.red), some (0)⟩ : SimState) c3In).1 = (⟨⟨⟨Phase.red, 31⟩, ⟨Phase.red, 31⟩, ⟨Phase.red, 31⟩, ⟨Phase.red, 31⟩, ⟨Phase.red, 31⟩⟩, 84, 60, none, Advice.maintain, 14, some (PredPhase.ph Phase.red), some (0)⟩ : SimState) := by
  norm_num [tick, advanceAll, advanceSig, suggestionStep, nextSignal,
    resumeStep, getSig, sigX, greenAdjust, adviceStep, stableOf, alertStep, alertFired,
    shouldTrigger, predictPhase, Eta.leB, Eta.sub, c3Cfg, c3In, phase_ne_rg,
    phase_ne_ry, phase_ne_gr, phase_ne_gy, phase_ne_yr, phase_ne_yg,
    advice_ne_ms, advice_ne_md, advice_ne_sm, advice_ne_sd, advice_ne_dm,
    advice_ne_ds, opt_none_some_pp, opt_some_none_pp, predphase_ph_inj,
    Option.some.injEq]

theorem c3Step14 : (tick c3Cfg (⟨⟨⟨Phase.red, 31⟩, ⟨Phase.red, 31⟩, ⟨Phase.red, 31⟩, ⟨Phase.red, 31⟩, ⟨Phase.red, 31⟩⟩, 84, 60, none, Advice.maintain, 14, some (PredPhase.ph Phase.red), some (0)⟩ : SimState) c3In).1 = (⟨⟨⟨Phase.red, 30⟩, ⟨Phase.red, 30⟩, ⟨Phase.red, 30⟩, ⟨Phase.red, 30⟩, ⟨Phase.red, 30⟩⟩, 90, 60, none, Advice.maintain, 15, some (PredPhase.ph Phase.red), some (0)⟩ : SimState) := by
  norm_num [tick, advanceAll, advanceSig, suggestionStep, nextSignal,
    resumeStep, getSig, sigX, greenAdjust, adviceStep, stableOf, alertStep, alertFired,
    shouldTrigger, predictPhase, Eta.leB, Eta.sub, c3Cfg, c3In, phase_ne_rg,
    phase_ne_ry, phase_ne_gr, phase_ne_gy, phase_ne_yr, phase_ne_yg,
    advice_ne_ms, advice_ne_md, advice_ne_sm, advice_ne_sd, advice_ne_dm,
    advice_ne_ds, opt_none_some_pp, opt_some_none_pp, predphase_ph_inj,
    Option.some.injEq]

theorem c3Step15 : (tick c3Cfg (⟨⟨⟨Phase.red, 30⟩, ⟨Phase.red, 30⟩, ⟨Phase.red, 30⟩, ⟨Phase.red, 30⟩, ⟨Phase.red, 30⟩⟩, 90, 60, none, Advice.maintain, 15, some (PredPhase.ph Phase.red), some (0)⟩ : SimState) c3In).1 = (⟨⟨⟨Phase.red, 29⟩, ⟨Phase.red, 29⟩, ⟨Phase.red, 29⟩, ⟨Phase.red, 29⟩, ⟨Phase.red, 29⟩⟩, 96, 60, none, Advice.maintain, 16, some (PredPhase.ph Phase.red), some (0)⟩ : SimState) := by
  norm_num [tick, advanceAll, advanceSig, suggestionStep, nextSignal,
    resumeStep, getSig, sigX, greenAdjust, adviceStep, stableOf, alertStep, alertFired,
    shouldTrigger, predictPhase, Eta.leB, Eta.sub, c3Cfg, c3In, phase_ne_rg,
    phase_ne_ry, phase_ne_gr, phase_ne_gy, phase_ne_yr, phase_ne_yg,
    advice_ne_ms, advice_ne_md, advice_ne_sm, advice_ne_sd, advice_ne_dm,
    advice_ne_ds, opt_none_some_pp, opt_some_none_pp, predphase_ph_inj,
    Option.some.injEq]

theorem c3Step16 : (tick c3Cfg (⟨⟨⟨Phase.red, 29⟩, ⟨Phase.red, 29⟩, ⟨Phase.red, 29⟩, ⟨Phase.red, 29⟩, ⟨Phase.red, 29⟩⟩, 96, 60, none, Advice.maintain, 16, some (PredPhase.ph Phase.red), some (0)⟩ : SimState) c3In).1 = (⟨⟨⟨Phase.red, 28⟩, ⟨Phase.red, 28⟩, ⟨Phase.red, 28⟩, ⟨Phase.red, 28⟩, ⟨Phase.red, 28⟩⟩, 102, 60, none, Advice.maintain, 17, some (PredPhase.ph Phase.red), some (0)⟩ : SimState) := by
  norm_num [tick, advanceAll, advanceSig, suggestionStep, nextSignal,
    resumeStep, getSig, sigX, greenAdjust, adviceStep, stableOf, alertStep, alertFired,
    shouldTrigger, predictPhase, Eta.leB, Eta.sub, c3Cfg, c3In, phase_ne_rg,
    phase_ne_ry, phase_ne_gr, phase_ne_gy, phase_ne_yr, phase_ne_yg,
    advice_ne_ms, advice_ne_md, advice_ne_sm, advice_ne_sd, advice_ne_dm,
    advice_ne_ds, opt_none_some_pp, opt_some_none_pp, predphase_ph_inj,
    Option.some.injEq]

theorem c3Step17 : (tick c3Cfg (⟨⟨⟨Phase.red, 28⟩, ⟨Phase.red, 28⟩, ⟨Phase.red, 28⟩, ⟨Phase.red, 28⟩, ⟨Phase.red, 28⟩⟩, 102, 60, none, Advice.maintain, 17, some (PredPhase.ph Phase.red), some (0)⟩ : SimState) c3In).1 = (⟨⟨⟨Phase.red, 27⟩, ⟨Phase.red, 27⟩, ⟨Phase.red, 27⟩, ⟨Phase.red, 27⟩, ⟨Phase.red, 27⟩⟩, 108, 60, none, Advice.maintain, 18, some (PredPhase.ph Phase.red), some (0)⟩ : SimState) := by
  norm_num [tick, advanceAll, advanceSig, suggestionStep, nextSignal,
    resumeStep, getSig, sigX, greenAdjust, adviceStep, stableOf, alertStep, alertFired,
    shouldTrigger, predictPhase, Eta.leB, Eta.sub, c3Cfg, c3In, phase_ne_rg,
    phase_ne_ry, phase_ne_gr, phase_ne_gy, phase_ne_yr, phase_ne_yg,
    advice_ne_ms, advice_ne_md, advice_ne_sm, advice_ne_sd, advice_ne_dm,
    advice_ne_ds, opt_none_some_pp, opt_some_none_pp, predphase_ph_inj,
    Option.some.injEq]

theorem c3Step18 : (tick c3Cfg (⟨⟨⟨Phase.red, 27⟩, ⟨Phase.red, 27⟩, ⟨Phase.red, 27⟩, ⟨Phase.red, 27⟩, ⟨Phase.red, 27⟩⟩, 108, 60, none, Advice.maintain, 18, some (PredPhase.ph Phase.red), some (0)⟩ : SimState) c3In).1 = (⟨⟨⟨Phase.red, 26⟩, ⟨Phase.red, 26⟩, ⟨Phase.red, 26⟩, ⟨Phase.red, 26⟩, ⟨Phase.red, 26⟩⟩, 114, 60, none, Advice.maintain, 19, some (PredPhase.ph Phase.red), some (0)⟩ : SimState) := by
  norm_num [tick, advanceAll, advanceSig, suggestionStep, nextSignal,
    resumeStep, getSig, sigX, greenAdjust, adviceStep, stableOf, alertStep, alertFired,
    shouldTrigger, predictPhase, Eta.leB, Eta.sub, c3Cfg, c3In, phase_ne_rg,
    phase_ne_ry, phase_ne_gr, phase_ne_gy, phase_ne_yr, phase_ne_yg,
    advice_ne_ms, advice_ne_md, advice_ne_sm, advice_ne_sd, advice_ne_dm,
    advice_ne_ds, opt_none_some_pp, opt_some_none_pp, predphase_ph_inj,
    Option.some.injEq]

theorem c3Step19 : (tick c3Cfg (⟨⟨⟨Phase.red, 26⟩, ⟨Phase.red, 26⟩, ⟨Phase.red, 26⟩, ⟨Phase.red, 26⟩, ⟨Phase.red, 26⟩⟩, 114, 60, none, Advice.maintain, 19, some (PredPhase.ph Phase.red), some (0)⟩ : SimState) c3In).1 = (⟨⟨⟨Phase.red, 25⟩, ⟨Phase.red, 25⟩, ⟨Phase.red, 25⟩, ⟨Phase.red, 25⟩, ⟨Phase.red, 25⟩⟩, 114, 0, some Lab.B, Advice.slowDown, 1, some (PredPhase.ph Phase.red), some (0)⟩ : SimState) := by
  norm_num [tick, advanceAll, advanceSig, suggestionStep, nextSignal,
    resumeStep, getSig, sigX, greenAdjust, adviceStep, stableOf, alertStep, alertFired,
    shouldTrigger, predictPhase, Eta.leB, Eta.sub, c3Cfg, c3In, phase_ne_rg,
    phase_ne_ry, phase_ne_gr, phase_ne_gy, phase_ne_yr, phase_ne_yg,
    advice_ne_ms, advice_ne_md, advice_ne_sm, advice_ne_sd, advice_ne_dm,
    advice_ne_ds, opt_none_some_pp, opt_some_none_pp, predphase_ph_inj,
    Option.some.injEq]

theorem c3Step20 : (tick c3Cfg (⟨⟨⟨Phase.red, 25⟩, ⟨Phase.red, 25⟩, ⟨Phase.red, 25⟩, ⟨Phase.red, 25⟩, ⟨Phase.red, 25⟩⟩, 114, 0, some Lab.B, Advice.slowDown, 1, some (PredPhase.ph Phase.red), some (0)⟩ : SimState) c3In).1 = (⟨⟨⟨Phase.red, 24⟩, ⟨Phase.red, 24⟩, ⟨Phase.red, 24⟩, ⟨Phase.red, 24⟩, ⟨Phase.red, 24⟩⟩, 114, 0, some Lab.B, Advice.slowDown, 2, some (PredPhase.ph Phase.red), some (0)⟩ : SimState) := by
  norm_num [tick, advanceAll, advanceSig, suggestionStep, nextSignal,
    resumeStep, getSig, sigX, greenAdjust, adviceStep, stableOf, alertStep, alertFired,
    shouldTrigger, predictPhase, Eta.leB, Eta.sub, c3Cfg, c3In, phase_ne_rg,
    phase_ne_ry, phase_ne_gr, phase_ne_gy, phase_ne_yr, phase_ne_yg,
    advice_ne_ms, advice_ne_md, advice_ne_sm, advice_ne_sd, advice_ne_dm,
    advice_ne_ds, opt_none_some_pp, opt_some_none_pp, predphase_ph_inj,
    Option.some.injEq]

theorem c3Step21 : (tick c3Cfg (⟨⟨⟨Phase.red, 24⟩, ⟨Phase.red, 24⟩, ⟨Phase.red, 24⟩, ⟨Phase.red, 24⟩, ⟨Phase.red, 24⟩⟩, 114, 0, some Lab.B, Advice.slowDown, 2, some (PredPhase.ph Phase.red), some (0)⟩ : SimState) c3In).1 = (⟨⟨⟨Phase.red, 23⟩, ⟨Phase.red, 23⟩, ⟨Phase.red, 23⟩, ⟨Phase.red, 23⟩, ⟨Phase.red, 23⟩⟩, 114, 0, some Lab.B, Advice.slowDown, 3, some (PredPhase.ph Phase.red), some (0)⟩ : SimState) := by
  norm_num [tick, advanceAll, advanceSig, suggestionStep, nextSignal,
    resumeStep, getSig, sigX, greenAdjust, adviceStep, stableOf, alertStep, alertFired,
    shouldTrigger, predictPhase, Eta.leB, Eta.sub, c3Cfg, c3In, phase_ne_rg,
    phase_ne_ry, phase_ne_gr, phase_ne_gy, phase_ne_yr, phase_ne_yg,
    advice_ne_ms, advice_ne_md, advice_ne_sm, advice_ne_sd, advice_ne_dm,
    advice_ne_ds, opt_none_some_pp, opt_some_none_pp, predphase_ph_inj,
    Option.some.injEq]

theorem c3Step22 : (tick c3Cfg (⟨⟨⟨Phase.red, 23⟩, ⟨Phase.red, 23⟩, ⟨Phase.red, 23⟩, ⟨Phase.red, 23⟩, ⟨Phase.red, 23⟩⟩, 114, 0, some Lab.B, Advice.slowDown, 3, some (PredPhase.ph Phase.red), some (0)⟩ : SimState) c3In).1 = (⟨⟨⟨Phase.red, 22⟩, ⟨Phase.red, 22⟩, ⟨Phase.red, 22⟩, ⟨Phase.red, 22⟩, ⟨Phase.red, 22⟩⟩, 114, 0, some Lab.B, Advice.slowDown, 4, some (PredPhase.ph Phase.red), some (0)⟩ : SimState) := by
  norm_num [tick, advanceAll, advanceSig, suggestionStep, nextSignal,
    resumeStep, getSig, sigX, greenAdjust, adviceStep, stableOf, alertStep, alertFired,
    shouldTrigger, predictPhase, Eta.leB, Eta.sub, c3Cfg, c3In, phase_ne_rg,
    phase_ne_ry, phase_ne_gr, phase_ne_gy, phase_ne_yr, phase_ne_yg,
    advice_ne_ms, advice_ne_md, advice_ne_sm, advice_ne_sd, advice_ne_dm,
    advice_ne_ds, opt_none_some_pp, opt_some_none_pp, predphase_ph_inj,
    Option.some.injEq]

theorem c3Step23 : (tick c3Cfg (⟨⟨⟨Phase.red, 22⟩, ⟨Phase.red, 22⟩, ⟨Phase.red, 22⟩, ⟨Phase.red, 22⟩, ⟨Phase.red, 22⟩⟩, 114, 0, some Lab.B, Advice.slowDown, 4, some (PredPhase.ph Phase.red), some (0)⟩ : SimState) c3In).1 = (⟨⟨⟨Phase.red, 21⟩, ⟨Phase.red, 21⟩, ⟨Phase.red, 21⟩, ⟨Phase.red, 21⟩, ⟨Phase.red, 21⟩⟩, 114, 0, some Lab.B, Advice.slowDown, 5, some (PredPhase.ph Phase.red), some (0)⟩ : SimState) := by
  norm_num [tick, advanceAll, advanceSig, suggestionStep, nextSignal,
    resumeStep, getSig, sigX, greenAdjust, adviceStep, stableOf, alertStep, alertFired,
    shouldTrigger, predictPhase, Eta.leB, Eta.sub, c3Cfg, c3In, phase_ne_rg,
    phase_ne_ry, phase_ne_gr, phase_ne_gy, phase_ne_yr, phase_ne_yg,
    advice_ne_ms, advice_ne_md, advice_ne_sm, advice_ne_sd, advice_ne_dm,
    advice_ne_ds, opt_none_some_pp, opt_some_none_pp, predphase_ph_inj,
    Option.some.injEq]

theorem c3Step24 : (tick c3Cfg (⟨⟨⟨Phase.red, 21⟩, ⟨Phase.red, 21⟩, ⟨Phase.red, 21⟩, ⟨Phase.red, 21⟩, ⟨Phase.red, 21⟩⟩, 114, 0, some Lab.B, Advice.slowDown, 5, some (PredPhase.ph Phase.red), some (0)⟩ : SimState) c3In).1 = (⟨⟨⟨Phase.red, 20⟩, ⟨Phase.red, 20⟩, ⟨Phase.red, 20⟩, ⟨Phase.red, 20⟩, ⟨Phase.red, 20⟩⟩, 114, 0, some Lab.B, Advice.slowDown, 6, some (PredPhase.ph Phase.red), some (0)⟩ : SimState) := by
  norm_num [tick, advanceAll, advanceSig, suggestionStep, nextSignal,
    resumeStep, getSig, sigX, greenAdjust, adviceStep, stableOf, alertStep, alertFired,
    shouldTrigger, predictPhase, Eta.leB, Eta.sub, c3Cfg, c3In, phase_ne_rg,
    phase_ne_ry, phase_ne_gr, phase_ne_gy, phase_ne_yr, phase_ne_yg,
    advice_ne_ms, advice_ne_md, advice_ne_sm, advice_ne_sd, advice_ne_dm,
    advice_ne_ds, opt_none_some_pp, opt_some_none_pp, predphase_ph_inj,
    Option.some.injEq]

theorem c3Step25 : (tick c3Cfg (⟨⟨⟨Phase.red, 20⟩, ⟨Phase.red, 20⟩, ⟨Phase.red, 20⟩, ⟨Phase.red, 20⟩, ⟨Phase.red, 20⟩⟩, 114, 0, some Lab.B, Advice.slowDown, 6, some (PredPhase.ph Phase.red), some (0)⟩ : SimState) c3In).1 = (⟨⟨⟨Phase.red, 19⟩, ⟨Phase.red, 19⟩, ⟨Phase.red, 19⟩, ⟨Phase.red, 19⟩, ⟨Phase.red, 19⟩⟩, 114, 0, some Lab.B, Advice.slowDown, 7, some (PredPhase.ph Phase.red), some (0)⟩ : SimState) := by
  norm_num [tick, advanceAll, advanceSig, suggestionStep, nextSignal,
    resumeStep, getSig, sigX, greenAdjust, adviceStep, stableOf, alertStep, alertFired,
    shouldTrigger, predictPhase, Eta.leB, Eta.sub, c3Cfg, c3In, phase_ne_rg,
    phase_ne_ry, phase_ne_gr, phase_ne_gy, phase_ne_yr, phase_ne_yg,
    advice_ne_ms, advice_ne_md, advice_ne_sm, advice_ne_sd, advice_ne_dm,
    advice_ne_ds, opt_none_some_pp, opt_some_none_pp, predphase_ph_inj,
    Option.some.injEq]

theorem c3Step26 : (tick c3Cfg (⟨⟨⟨Phase.red, 19⟩, ⟨Phase.red, 19⟩, ⟨Phase.red, 19⟩, ⟨Phase.red, 19⟩, ⟨Phase.red, 19⟩⟩, 114, 0, some Lab.B, Advice.slowDown, 7, some (PredPhase.ph Phase.red), some (0)⟩ : SimState) c3In).1 = (⟨⟨⟨Phase.red, 18⟩, ⟨Phase.red, 18⟩, ⟨Phase.red, 18⟩, ⟨Phase.red, 18⟩, ⟨Phase.red, 18⟩⟩, 114, 0, some Lab.B, Advice.slowDown, 8, some (PredPhase.ph Phase.red), some (0)⟩ : SimState) := by
  norm_num [tick, advanceAll, advanceSig, suggestionStep, nextSignal,
    resumeStep, getSig, sigX, greenAdjust, adviceStep, stableOf, alertStep, alertFired,
    shouldTrigger, predictPhase, Eta.leB, Eta.sub, c3Cfg, c3In, phase_ne_rg,
    phase_ne_ry, phase_ne_gr, phase_ne_gy, phase_ne_yr, phase_ne_yg,
    advice_ne_ms, advice_ne_md, advice_ne_sm, advice_ne_sd, advice_ne_dm,
    advice_ne_ds, opt_none_some_pp, opt_some_none_pp, predphase_ph_inj,
    Option.some.injEq]

theorem c3Step27 : (tick c3Cfg (⟨⟨⟨Phase.red, 18⟩, ⟨Phase.red, 18⟩, ⟨Phase.red, 18⟩, ⟨Phase.red, 18⟩, ⟨Phase.red, 18⟩⟩, 114, 0, some Lab.B, Advice.slowDown, 8, some (PredPhase.ph Phase.red), some (0)⟩ : SimState) c3In).1 = (⟨⟨⟨Phase.red, 17⟩, ⟨Phase.red, 17⟩, ⟨Phase.red, 17⟩, ⟨Phase.red, 17⟩, ⟨Phase.red, 17⟩⟩, 114, 0, some Lab.B, Advice.slowDown, 9, some (PredPhase.ph Phase.red), some (0)⟩ : SimState) := by
  norm_num [tick, advanceAll, advanceSig, suggestionStep, nextSignal,
    resumeStep, getSig, sigX, greenAdjust, adviceStep, stableOf, alertStep, alertFired,
    shouldTrigger, predictPhase, Eta.leB, Eta.sub, c3Cfg, c3In, phase_ne_rg,
    phase_ne_ry, phase_ne_gr, phase_ne_gy, phase_ne_yr, phase_ne_yg,
    advice_ne_ms, advice_ne_md, advice_ne_sm, advice_ne_sd, advice_ne_dm,
    advice_ne_ds, opt_none_some_pp, opt_some_none_pp, predphase_ph_inj,
    Option.some.injEq]

theorem c3Step28 : (tick c3Cfg (⟨⟨⟨Phase.red, 17⟩, ⟨Phase.red, 17⟩, ⟨Phase.red, 17⟩, ⟨Phase.red, 17⟩, ⟨Phase.red, 17⟩⟩, 114, 0, some Lab.B, Advice.slowDown, 9, some (PredPhase.ph Phase.red), some (0)⟩ : SimState) c3In).1 = (⟨⟨⟨Phase.red, 16⟩, ⟨Phase.red, 16⟩, ⟨Phase.red, 16⟩, ⟨Phase.red, 16⟩, ⟨Phase.red, 16⟩⟩, 114, 0, some Lab.B, Advice.slowDown, 10, some (PredPhase.ph Phase.red), some (0)⟩ : SimState) := by
  norm_num [tick, advanceAll, advanceSig, suggestionStep, nextSignal,
    resumeStep, getSig, sigX, greenAdjust, adviceStep, stableOf, alertStep, alertFired,
    shouldTrigger, predictPhase, Eta.leB, Eta.sub, c3Cfg, c3In, phase_ne_rg,
    phase_ne_ry, phase_ne_gr, phase_ne_gy, phase_ne_yr, phase_ne_yg,
    advice_ne_ms, advice_ne_md, advice_ne_sm, advice_ne_sd, advice_ne_dm,
    advice_ne_ds, opt_none_some_pp, opt_some_none_pp, predphase_ph_inj,
    Option.some.injEq]

theorem c3Step29 : (tick c3Cfg (⟨⟨⟨Phase.red, 16⟩, ⟨Phase.red, 16⟩, ⟨Phase.red, 16⟩, ⟨Phase.red, 16⟩, ⟨Phase.red, 16⟩⟩, 114, 0, some Lab.B, Advice.slowDown, 10, some (PredPhase.ph Phase.red), some (0)⟩ : SimState) c3In).1 = (⟨⟨⟨Phase.red, 15⟩, ⟨Phase.red, 15⟩, ⟨Phase.red, 15⟩, ⟨Phase.red, 15⟩, ⟨Phase.red, 15⟩⟩, 114, 0, some Lab.B, Advice.slowDown, 11, some (PredPhase.ph Phase.red), some (0)⟩ : SimState) := by
  norm_num [tick, advanceAll, advanceSig, suggestionStep, nextSignal,
    resumeStep, getSig, sigX, greenAdjust, adviceStep, stableOf, alertStep, alertFired,
    shouldTrigger, predictPhase, Eta.leB, Eta.sub, c3Cfg, c3In, phase_ne_rg,
    phase_ne_ry, phase_ne_gr, phase_ne_gy, phase_ne_yr, phase_ne_yg,
    advice_ne_ms, advice_ne_md, advice_ne_sm, advice_ne_sd, advice_ne_dm,
    advice_ne_ds, opt_none_some_pp, opt_some_none_pp, predphase_ph_inj,
    Option.some.injEq]

theorem c3Step30 : (tick c3Cfg (⟨⟨⟨Phase.red, 15⟩, ⟨Phase.red, 15⟩, ⟨Phase.red, 15⟩, ⟨Phase.red, 15⟩, ⟨Phase.red, 15⟩⟩, 114, 0, some Lab.B, Advice.slowDown, 11, some (PredPhase.ph Phase.red), some (0)⟩ : SimState) c3In).1 = (⟨⟨⟨Phase.red, 14⟩, ⟨Phase.red, 14⟩, ⟨Phase.red, 14⟩, ⟨Phase.red, 14⟩, ⟨Phase.red, 14⟩⟩, 114, 0, some Lab.B, Advice.slowDown, 12, some (PredPhase.ph Phase.red), some (0)⟩ : SimState) := by
  norm_num [tick, advanceAll, advanceSig, suggestionStep, nextSignal,
    resumeStep, getSig, sigX, greenAdjust, adviceStep, stableOf, alertStep, alertFired,
    shouldTrigger, predictPhase, Eta.leB, Eta.sub, c3Cfg, c3In, phase_ne_rg,
    phase_ne_ry, phase_ne_gr, phase_ne_gy, phase_ne_yr, phase_ne_yg,
    advice_ne_ms, advice_ne_md, advice_ne_sm, advice_ne_sd, advice_ne_dm,
    advice_ne_ds, opt_none_some_pp, opt_some_none_pp, predphase_ph_inj,
    Option.some.injEq]

theorem c3Step31 : (tick c3Cfg (⟨⟨⟨Phase.red, 14⟩, ⟨Phase.red, 14⟩, ⟨Phase.red, 14⟩, ⟨Phase.red, 14⟩, ⟨Phase.red, 14⟩⟩, 114, 0, some Lab.B, Advice.slowDown, 12, some (PredPhase.ph Phase.red), some (0)⟩ : SimState) c3In).1 = (⟨⟨⟨Phase.red, 13⟩, ⟨Phase.red, 13⟩, ⟨Phase.red, 13⟩, ⟨Phase.red, 13⟩, ⟨Phase.red, 13⟩⟩, 114, 0, some Lab.B, Advice.slowDown, 13, some (PredPhase.ph Phase.red), some (0)⟩ : SimState) := by
  norm_num [tick, advanceAll, advanceSig, suggestionStep, nextSignal,
    resumeStep, getSig, sigX, greenAdjust, adviceStep, stableOf, alertStep, alertFired,
    shouldTrigger, predictPhase, Eta.leB, Eta.sub, c3Cfg, c3In, phase_ne_rg,
    phase_ne_ry, phase_ne_gr, phase_ne_gy, phase_ne_yr, phase_ne_yg,
    advice_ne_ms, advice_ne_md, advice_ne_sm, advice_ne_sd, advice_ne_dm,
    advice_ne_ds, opt_none_some_pp, opt_some_none_pp, predphase_ph_inj,
    Option.some.injEq]

theorem c3Step32 : (tick c3Cfg (⟨⟨⟨Phase.red, 13⟩, ⟨Phase.red, 13⟩, ⟨Phase.red, 13⟩, ⟨Phase.red, 13⟩, ⟨Phase.red, 13⟩⟩, 114, 0, some Lab.B, Advice.slowDown, 13, some (PredPhase.ph Phase.red), some (0)⟩ : SimState) c3In).1 = (⟨⟨⟨Phase.red, 12⟩, ⟨Phase.red, 12⟩, ⟨Phase.red, 12⟩, ⟨Phase.red, 12⟩, ⟨Phase.red, 12⟩⟩, 114, 0, some Lab.B, Advice.slowDown, 14, some (PredPhase.ph Phase.red), some (0)⟩ : SimState) := by
  norm_num [tick, advanceAll, advanceSig, suggestionStep, nextSignal,
    resumeStep, getSig, sigX, greenAdjust, adviceStep, stableOf, alertStep, alertFired,
    shouldTrigger, predictPhase, Eta.leB, Eta.sub, c3Cfg, c3In, phase_ne_rg,
    phase_ne_ry, phase_ne_gr, phase_ne_gy, phase_ne_yr, phase_ne_yg,
    advice_ne_ms, advice_ne_md, advice_ne_sm, advice_ne_sd, advice_ne_dm,
    advice_ne_ds, opt_none_some_pp, opt_some_none_pp, predphase_ph_inj,
    Option.some.injEq]

theorem c3Step33 : (tick c3Cfg (⟨⟨⟨Phase.red, 12⟩, ⟨Phase.red, 12⟩, ⟨Phase.red, 12⟩, ⟨Phase.red, 12⟩, ⟨Phase.red, 12⟩⟩, 114, 0, some Lab.B, Advice.slowDown, 14, some (PredPhase.ph Phase.red), some (0)⟩ : SimState) c3In).1 = (⟨⟨⟨Phase.red, 11⟩, ⟨Phase.red, 11⟩, ⟨Phase.red, 11⟩, ⟨Phase.red, 11⟩, ⟨Phase.red, 11⟩⟩, 114, 0, some Lab.B, Advice.slowDown, 15, some (PredPhase.ph Phase.red), some (0)⟩ : SimState) := by
  norm_num [tick, advanceAll, advanceSig, suggestionStep, nextSignal,
    resumeStep, getSig, sigX, greenAdjust, adviceStep, stableOf, alertStep, alertFired,
    shouldTrigger, predictPhase, Eta.leB, Eta.sub, c3Cfg, c3In, phase_ne_rg,
    phase_ne_ry, phase_ne_gr, phase_ne_gy, phase_ne_yr, phase_ne_yg,
    advice_ne_ms, advice_ne_md, advice_ne_sm, advice_ne_sd, advice_ne_dm,
    advice_ne_ds, opt_none_some_pp, opt_some_none_pp, predphase_ph_inj,
    Option.some.injEq]

theorem c3Step34 : (tick c3Cfg (⟨⟨⟨Phase.red, 11⟩, ⟨Phase.red, 11⟩, ⟨Phase.red, 11⟩, ⟨Phase.red, 11⟩, ⟨Phase.red, 11⟩⟩, 114, 0, some Lab.B, Advice.slowDown, 15, some (PredPhase.ph Phase.red), some (0)⟩ : SimState) c3In).1 = (⟨⟨⟨Phase.red, 10⟩, ⟨Phase.red, 10⟩, ⟨Phase.red, 10⟩, ⟨Phase.red, 10⟩, ⟨Phase.red, 10⟩⟩, 114, 0, some Lab.B, Advice.slowDown, 16, some (PredPhase.ph Phase.red), some (0)⟩ : SimState) := by
  norm_num [tick, advanceAll, advanceSig, suggestionStep, nextSignal,
    resumeStep, getSig, sigX, greenAdjust, adviceStep, stableOf, alertStep, alertFired,
    shouldTrigger, predictPhase, Eta.leB, Eta.sub, c3Cfg, c3In, phase_ne_rg,
    phase_ne_ry, phase_ne_gr, phase_ne_gy, phase_ne_yr, phase_ne_yg,
    advice_ne_ms, advice_ne_md, advice_ne_sm, advice_ne_sd, advice_ne_dm,
    advice_ne_ds, opt_none_some_pp, opt_some_none_pp, predphase_ph_inj,
    Option.some.injEq]

theorem c3Step35 : (tick c3Cfg (⟨⟨⟨Phase.red, 10⟩, ⟨Phase.red, 10⟩, ⟨Phase.red, 10⟩, ⟨Phase.red, 10⟩, ⟨Phase.red, 10⟩⟩, 114, 0, some Lab.B, Advice.slowDown, 16, some (PredPhase.ph Phase.red), some (0)⟩ : SimState) c3In).1 = (⟨⟨⟨Phase.red, 9⟩, ⟨Phase.red, 9⟩, ⟨Phase.red, 9⟩, ⟨Phase.red, 9⟩, ⟨Phase.red, 9⟩⟩, 114, 0, some Lab.B, Advice.slowDown, 17, some (PredPhase.ph Phase.red), some (0)⟩ : SimState) := by
  norm_num [tick, advanceAll, advanceSig, suggestionStep, nextSignal,
    resumeStep, getSig, sigX, greenAdjust, adviceStep, stableOf, alertStep, alertFired,
    shouldTrigger, predictPhase, Eta.leB, Eta.sub, c3Cfg, c3In, phase_ne_rg,
    phase_ne_ry, phase_ne_gr, phase_ne_gy, phase_ne_yr, phase_ne_yg,
    advice_ne_ms, advice_ne_md, advice_ne_sm, advice_ne_sd, advice_ne_dm,
    advice_ne_ds, opt_none_some_pp, opt_some_none_pp, predphase_ph_inj,
    Option.some.injEq]

theorem c3Step36 : (tick c3Cfg (⟨⟨⟨Phase.red, 9⟩, ⟨Phase.red, 9⟩, ⟨Phase.red, 9⟩, ⟨Phase.red, 9⟩, ⟨Phase.red, 9⟩⟩, 114, 0, some Lab.B, Advice.slowDown, 17, some (PredPhase.ph Phase.red), some (0)⟩ : SimState) c3In).1 = (⟨⟨⟨Phase.red, 8⟩, ⟨Phase.red, 8⟩, ⟨Phase.red, 8⟩, ⟨Phase.red, 8⟩, ⟨Phase.red, 8⟩⟩, 114, 0, some Lab.B, Advice.slowDown, 18, some (PredPhase.ph Phase.red), some (0)⟩ : SimState) := by
  norm_num [tick, advanceAll, advanceSig, suggestionStep, nextSignal,
    resumeStep, getSig, sigX, greenAdjust, adviceStep, stableOf, alertStep, alertFired,
    shouldTrigger, predictPhase, Eta.leB, Eta.sub, c3Cfg, c3In, phase_ne_rg,
    phase_ne_ry, phase_ne_gr, phase_ne_gy, phase_ne_yr, phase_ne_yg,
    advice_ne_ms, advice_ne_md, advice_ne_sm, advice_ne_sd, advice_ne_dm,
    advice_ne_ds, opt_none_some_pp, opt_some_none_pp, predphase_ph_inj,
    Option.some.injEq]

theorem c3Step37 : (tick c3Cfg (⟨⟨⟨Phase.red, 8⟩, ⟨Phase.red, 8⟩, ⟨Phase.red, 8⟩, ⟨Phase.red, 8⟩, ⟨Phase.red, 8⟩⟩, 114, 0, some Lab.B, Advice.slowDown, 18, some (PredPhase.ph Phase.red), some (0)⟩ : SimState) c3In).1 = (⟨⟨⟨Phase.red, 7⟩, ⟨Phase.red, 7⟩, ⟨Phase.red, 7⟩, ⟨Phase.red, 7⟩, ⟨Phase.red, 7⟩⟩, 114, 0, some Lab.B, Advice.slowDown, 19, some (PredPhase.ph Phase.red), some (0)⟩ : SimState) := by
  norm_num [tick, advanceAll, advanceSig, suggestionStep, nextSignal,
    resumeStep, getSig, sigX, greenAdjust, adviceStep, stableOf, alertStep, alertFired,
    shouldTrigger, predictPhase, Eta.leB, Eta.sub, c3Cfg, c3In, phase_ne_rg,
    phase_ne_ry, phase_ne_gr, phase_ne_gy, phase_ne_yr, phase_ne_yg,
    advice_ne_ms, advice_ne_md, advice_ne_sm, advice_ne_sd, advice_ne_dm,
    advice_ne_ds, opt_none_some_pp, opt_some_none_pp, predphase_ph_inj,
    Option.some.injEq]

theorem c3Step38 : (tick c3Cfg (⟨⟨⟨Phase.red, 7⟩, ⟨Phase.red, 7⟩, ⟨Phase.red, 7⟩, ⟨Phase.red, 7⟩, ⟨Phase.red, 7⟩⟩, 114, 0, some Lab.B, Advice.slowDown, 19, some (PredPhase.ph Phase.red), some (0)⟩ : SimState) c3In).1 = (⟨⟨⟨Phase.red, 6⟩, ⟨Phase.red, 6⟩, ⟨Phase.red, 6⟩, ⟨Phase.red, 6⟩, ⟨Phase.red, 6⟩⟩, 114, 0, some Lab.B, Advice.slowDown, 20, some (PredPhase.ph Phase.red), some (0)⟩ : SimState) := by
  norm_num [tick, advanceAll, advanceSig, suggestionStep, nextSignal,
    resumeStep, getSig, sigX, greenAdjust, adviceStep, stableOf, alertStep, alertFired,
    shouldTrigger, predictPhase, Eta.leB, Eta.sub, c3Cfg, c3In, phase_ne_rg,
    phase_ne_ry, phase_ne_gr, phase_ne_gy, phase_ne_yr, phase_ne_yg,
    advice_ne_ms, advice_ne_md, advice_ne_sm, advice_ne_sd, advice_ne_dm,
    advice_ne_ds, opt_none_some_pp, opt_some_none_pp, predphase_ph_inj,
    Option.some.injEq]

theorem c3Step39 : (tick c3Cfg (⟨⟨⟨Phase.red, 6⟩, ⟨Phase.red, 6⟩, ⟨Phase.red, 6⟩, ⟨Phase.red, 6⟩, ⟨Phase.red, 6⟩⟩, 114, 0, some Lab.B, Advice.slowDown, 20, some (PredPhase.ph Phase.red), some (0)⟩ : SimState) c3In).1 = (⟨⟨⟨Phase.red, 5⟩, ⟨Phase.red, 5⟩, ⟨Phase.red, 5⟩, ⟨Phase.red, 5⟩, ⟨Phase.red, 5⟩⟩, 114, 0, some Lab.B, Advice.slowDown, 21, some (PredPhase.ph Phase.red), some (0)⟩ : SimState) := by
  norm_num [tick, advanceAll, advanceSig, suggestionStep, nextSignal,
    resumeStep, getSig, sigX, greenAdjust, adviceStep, stableOf, alertStep, alertFired,
    shouldTrigger, predictPhase, Eta.leB, Eta.sub, c3Cfg, c3In, phase_ne_rg,
    phase_ne_ry, phase_ne_gr, phase_ne_gy, phase_ne_yr, phase_ne_yg,
    advice_ne_ms, advice_ne_md, advice_ne_sm, advice_ne_sd, advice_ne_dm,
    advice_ne_ds, opt_none_some_pp, opt_some_none_pp, predphase_ph_inj,
    Option.some.injEq]

theorem c3Step40 : (tick c3Cfg (⟨⟨⟨Phase.red, 5⟩, ⟨Phase.red, 5⟩, ⟨Phase.red, 5⟩, ⟨Phase.red, 5⟩, ⟨Phase.red, 5⟩⟩, 114, 0, some Lab.B, Advice.slowDown, 21, some (PredPhase.ph Phase.red), some (0)⟩ : SimState) c3In).1 = (⟨⟨⟨Phase.red, 4⟩, ⟨Phase.red, 4⟩, ⟨Phase.red, 4⟩, ⟨Phase.red, 4⟩, ⟨Phase.red, 4⟩⟩, 114, 0, some Lab.B, Advice.slowDown, 22, some (PredPhase.ph Phase.red), some (0)⟩ : SimState) := by
  norm_num [tick, advanceAll, advanceSig, suggestionStep, nextSignal,
    resumeStep, getSig, sigX, greenAdjust, adviceStep, stableOf, alertStep, alertFired,
    shouldTrigger, predictPhase, Eta.leB, Eta.sub, c3Cfg, c3In, phase_ne_rg,
    phase_ne_ry, phase_ne_gr, phase_ne_gy, phase_ne_yr, phase_ne_yg,
    advice_ne_ms, advice_ne_md, advice_ne_sm, advice_ne_sd, advice_ne_dm,
    advice_ne_ds, opt_none_some_pp, opt_some_none_pp, predphase_ph_inj,
    Option.some.injEq]

theorem c3Step41 : (tick c3Cfg (⟨⟨⟨Phase.red, 4⟩, ⟨Phase.red, 4⟩, ⟨Phase.red, 4⟩, ⟨Phase.red, 4⟩, ⟨Phase.red, 4⟩⟩, 114, 0, some Lab.B, Advice.slowDown, 22, some (PredPhase.ph Phase.red), some (0)⟩ : SimState) c3In).1 = (⟨⟨⟨Phase.red, 3⟩, ⟨Phase.red, 3⟩, ⟨Phase.red, 3⟩, ⟨Phase.red, 3⟩, ⟨Phase.red, 3⟩⟩, 114, 0, some Lab.B, Advice.slowDown, 23, some (PredPhase.ph Phase.red), some (0)⟩ : SimState) := by
  norm_num [tick, advanceAll, advanceSig, suggestionStep, nextSignal,
    resumeStep, getSig, sigX, greenAdjust, adviceStep, stableOf, alertStep, alertFired,
    shouldTrigger, predictPhase, Eta.leB, Eta.sub, c3Cfg, c3In, phase_ne_rg,
    phase_ne_ry, phase_ne_gr, phase_ne_gy, phase_ne_yr, phase_ne_yg,
    advice_ne_ms, advice_ne_md, advice_ne_sm, advice_ne_sd, advice_ne_dm,
    advice_ne_ds, opt_none_some_pp, opt_some_none_pp, predphase_ph_inj,
    Option.some.injEq]

theorem c3Step42 : (tick c3Cfg (⟨⟨⟨Phase.red, 3⟩, ⟨Phase.red, 3⟩, ⟨Phase.red, 3⟩, ⟨Phase.red, 3⟩, ⟨Phase.red, 3⟩⟩, 114, 0, some Lab.B, Advice.slowDown, 23, some (PredPhase.ph Phase.red), some (0)⟩ : SimState) c3In).1 = (⟨⟨⟨Phase.red, 2⟩, ⟨Phase.red, 2⟩, ⟨Phase.red, 2⟩, ⟨Phase.red, 2⟩, ⟨Phase.red, 2⟩⟩, 114, 0, some Lab.B, Advice.slowDown, 24, some (PredPhase.ph Phase.red), some (0)⟩ : SimState) := by
  norm_num [tick, advanceAll, advanceSig, suggestionStep, nextSignal,
    resumeStep, getSig, sigX, greenAdjust, adviceStep, stableOf, alertStep, alertFired,
    shouldTrigger, predictPhase, Eta.leB, Eta.sub, c3Cfg, c3In, phase_ne_rg,
    phase_ne_ry, phase_ne_gr, phase_ne_gy, phase_ne_yr, phase_ne_yg,
    advice_ne_ms, advice_ne_md, advice_ne_sm, advice_ne_sd, advice_ne_dm,
    advice_ne_ds, opt_none_some_pp, opt_some_none_pp, predphase_ph_inj,
    Option.some.injEq]

theorem c3Step43 : (tick c3Cfg (⟨⟨⟨Phase.red, 2⟩, ⟨Phase.red, 2⟩, ⟨Phase.red, 2⟩, ⟨Phase.red, 2⟩, ⟨Phase.red, 2⟩⟩, 114, 0, some Lab.B, Advice.slowDown, 24, some (PredPhase.ph Phase.red), some (0)⟩ : SimState) c3In).1 = (⟨⟨⟨Phase.red, 1⟩, ⟨Phase.red, 1⟩, ⟨Phase.red, 1⟩, ⟨Phase.red, 1⟩, ⟨Phase.red, 1⟩⟩, 114, 0, some Lab.B, Advice.slowDown, 25, some (PredPhase.ph Phase.red), some (0)⟩ : SimState) := by
  norm_num [tick, advanceAll, advanceSig, suggestionStep, nextSignal,
    resumeStep, getSig, sigX, greenAdjust, adviceStep, stableOf, alertStep, alertFired,
    shouldTrigger, predictPhase, Eta.leB, Eta.sub, c3Cfg, c3In, phase_ne_rg,
    phase_ne_ry, phase_ne_gr, phase_ne_gy, phase_ne_yr, phase_ne_yg,
    advice_ne_ms, advice_ne_md, advice_ne_sm, advice_ne_sd, advice_ne_dm,
    advice_ne_ds, opt_none_some_pp, opt_some_none_pp, predphase_ph_inj,
    Option.some.injEq]

theorem c3Step44 : (tick c3Cfg (⟨⟨⟨Phase.red, 1⟩, ⟨Phase.red, 1⟩, ⟨Phase.red, 1⟩, ⟨Phase.red, 1⟩, ⟨Phase.red, 1⟩⟩, 114, 0, some Lab.B, Advice.slowDown, 25, some (PredPhase.ph Phase.red), some (0)⟩ : SimState) c3In).1 = (⟨⟨⟨Phase.green, 45⟩, ⟨Phase.green, 45⟩, ⟨Phase.green, 45⟩, ⟨Phase.green, 45⟩, ⟨Phase.green, 45⟩⟩, 231/2, 15, none, Advice.speedUp, 1, some (PredPhase.ph Phase.red), some (0)⟩ : SimState) := by
  norm_num [tick, advanceAll, advanceSig, suggestionStep, nextSignal,
    resumeStep, getSig, sigX, greenAdjust, adviceStep, stableOf, alertStep, alertFired,
    shouldTrigger, predictPhase, Eta.leB, Eta.sub, c3Cfg, c3In, phase_ne_rg,
    phase_ne_ry, phase_ne_gr, phase_ne_gy, phase_ne_yr, phase_ne_yg,
    advice_ne_ms, advice_ne_md, advice_ne_sm, advice_ne_sd, advice_ne_dm,
    advice_ne_ds, opt_none_some_pp, opt_some_none_pp, predphase_ph_inj,
    Option.some.injEq]

theorem c3Run45 : run c3Cfg c3St (fun _ => c3In) 45 =
    (⟨⟨⟨Phase.green, 45⟩, ⟨Phase.green, 45⟩, ⟨Phase.green, 45⟩, ⟨Phase.green, 45⟩, ⟨Phase.green, 45⟩⟩, 231/2, 15, none, Advice.speedUp, 1, some (PredPhase.ph Phase.red), some (0)⟩ : SimState) := by
  have e0 : c3St = (⟨⟨⟨Phase.red, 45⟩, ⟨Phase.red, 45⟩, ⟨Phase.red, 45⟩, ⟨Phase.red, 45⟩, ⟨Phase.red, 45⟩⟩, 0, 60, none, Advice.maintain, 0, none, none⟩ : SimState) := by
    norm_num [c3St, c3Cfg, initState, init_traffic_lights, phase_ne_ry]
  rw [e0]
  rw [run_const_succ, c3Step0]
  rw [run_const_succ, c3Step1]
  rw [run_const_succ, c3Step2]
  rw [run_const_succ, c3Step3]
  rw [run_const_succ, c3Step4]
  rw [run_const_succ, c3Step5]
  rw [run_const_succ, c3Step6]
  rw [run_const_succ, c3Step7]
  rw [run_const_succ, c3Step8]
  rw [run_const_succ, c3Step9]
  rw [run_const_succ, c3Step10]
  rw [run_const_succ, c3Step11]
  rw [run_const_succ, c3Step12]
  rw [run_const_succ, c3Step13]
  rw [run_const_succ, c3Step14]
  rw [run_const_succ, c3Step15]
  rw [run_const_succ, c3Step16]
  rw [run_const_succ, c3Step17]
  rw [run_const_succ, c3Step18]
  rw [run_const_succ, c3Step19]
  rw [run_const_succ, c3Step20]
  rw [run_const_succ, c3Step21]
  rw [run_const_succ, c3Step22]
  rw [run_const_succ, c3Step23]
  rw [run_const_succ, c3Step24]
  rw [run_const_succ, c3Step25]
  rw [run_const_succ, c3Step26]
  rw [run_const_succ, c3Step27]
  rw [run_const_succ, c3Step28]
  rw [run_const_succ, c3Step29]
  rw [run_const_succ, c3Step30]
  rw [run_const_succ, c3Step31]
  rw [run_const_succ, c3Step32]
  rw [run_const_succ, c3Step33]
  rw [run_const_succ, c3Step34]
  rw [run_const_succ, c3Step35]
  rw [run_const_succ, c3Step36]
  rw [run_const_succ, c3Step37]
  rw [run_const_succ, c3Step38]
  rw [run_const_succ, c3Step39]
  rw [run_const_succ, c3Step40]
  rw [run_const_succ, c3Step41]
  rw [run_const_succ, c3Step42]
  rw [run_const_succ, c3Step43]
  rw [run_const_succ, c3Step44]
  rfl

/-- C3 counterexample: in a run from a valid configuration
(min 20 ≤ initial 60 ≤ max 60), after 45 ticks the vehicle has stopped at
red signal B and resumed at the fixed resume speed 15
(src/app.py line 170), so it is Moving with speed 15 < minSpeed 20 — the
claimed speed-range invariant fails at the resume transition. -/
theorem C3_cex :
    c3Cfg.sim_min_speed ≤ c3Cfg.sim_initial_speed ∧
    c3Cfg.sim_initial_speed ≤ c3Cfg.sim_max_speed ∧
    (run c3Cfg c3St (fun _ => c3In) 45).waiting_at = none ∧
    (run c3Cfg c3St (fun _ => c3In) 45).car_speed = 15 ∧
    ¬ (c3Cfg.sim_min_speed ≤ (run c3Cfg c3St (fun _ => c3In) 45).car_speed) := by
  rw [c3Run45]
  refine ⟨by norm_num [c3Cfg], by norm_num [c3Cfg], rfl, rfl, by norm_num [c3Cfg]⟩

/-! ## Per-case tick lemmas -/

theorem advanceSig_phase (r : ℤ) (s : SigSt) :
    (advanceSig r s).phase = s.phase ∨
    (advanceSig r s).phase = cycleNext s.phase := by
  unfold advanceSig
  dsimp only
  split_ifs
  · cases s.phase <;> simp [cycleNext]
  · simp

theorem greenAdjust_cases (minS maxS v : ℚ) (coin : Bool) :
    (greenAdjust minS maxS v coin).2 = v ∨
    (greenAdjust minS maxS v coin).2 = min (v + 5) maxS ∨
    (greenAdjust minS maxS v coin).2 = max (v - 5) minS := by
  unfold greenAdjust
  cases coin <;> split_ifs <;> simp

theorem greenAdjust_bounds (minS maxS v : ℚ) (coin : Bool)
    (hmm : minS ≤ maxS) (h1 : minS ≤ v) (h2 : v ≤ maxS) :
    minS ≤ (greenAdjust minS maxS v coin).2 ∧
    (greenAdjust minS maxS v coin).2 ≤ maxS := by
  rcases greenAdjust_cases minS maxS v coin with h | h | h <;> rw [h]
  · exact ⟨h1, h2⟩
  · exact ⟨le_min (by linarith) hmm, min_le_right _ _⟩
  · exact ⟨le_max_right _ _, max_le (by linarith) hmm⟩

theorem greenAdjust_ten (minS maxS v : ℚ) (coin : Bool)
    (hm : 10 ≤ minS) (hx : 10 ≤ maxS) (hv : 10 ≤ v) :
    10 ≤ (greenAdjust minS maxS v coin).2 := by
  rcases greenAdjust_cases minS maxS v coin with h | h | h <;> rw [h]
  · exact hv
  · exact le_min (by linarith) hx
  · exact le_trans hm (le_max_right _ _)

theorem tick_nosig_move (cfg : Config) (st : SimState) (inp : TickIn)
    (hns : nextSignal st.car_x = none) (hw : st.waiting_at = none) :
    (tick cfg st inp).1.car_speed = st.car_speed ∧
    (tick cfg st inp).1.waiting_at = none ∧
    (tick cfg st inp).1.car_x =
      (if 0 < st.car_speed then st.car_x + st.car_speed * (1 / 10)
       else st.car_x) ∧
    (tick cfg st inp).1.sigs = advanceAll inp.redT st.sigs := by
  simp [tick, suggestionStep, resumeStep, hns, hw]

theorem tick_stop (cfg : Config) (st : SimState) (inp : TickIn) (L : Lab)
    (hns : nextSignal st.car_x = some L)
    (hred : (getSig (advanceAll inp.redT st.sigs) L).phase = Phase.red)
    (hd : sigX L - st.car_x ≤ 40) :
    (tick cfg st inp).1.car_speed = 0 ∧
    (tick cfg st inp).1.waiting_at = some L ∧
    (tick cfg st inp).1.car_x = st.car_x ∧
    (tick cfg st inp).1.sigs = advanceAll inp.redT st.sigs := by
  simp [tick, suggestionStep, resumeStep, hns, hred, hd, phase_ne_rg]

theorem tick_green_move (cfg : Config) (st : SimState) (inp : TickIn) (L : Lab)
    (hns : nextSignal st.car_x = some L)
    (hg : (getSig (advanceAll inp.redT st.sigs) L).phase = Phase.green)
    (hw : st.waiting_at = none) :
    (tick cfg st inp).1.car_speed =
      (greenAdjust cfg.sim_min_speed cfg.sim_max_speed st.car_speed inp.coin).2 ∧
    (tick cfg st inp).1.waiting_at = none ∧
    (tick cfg st inp).1.car_x =
      (if 0 < (greenAdjust cfg.sim_min_speed cfg.sim_max_speed st.car_speed
          inp.coin).2 then
        st.car_x + (greenAdjust cfg.sim_min_speed cfg.sim_max_speed
          st.car_speed inp.coin).2 * (1 / 10)
       else st.car_x) ∧
    (tick cfg st inp).1.sigs = advanceAll inp.redT st.sigs := by
  simp [tick, suggestionStep, resumeStep, hns, hg, hw, phase_ne_gr]

theorem tick_resume (cfg : Config) (st : SimState) (inp : TickIn) (M : Lab)
    (hns : nextSignal st.car_x = some M)
    (hw : st.waiting_at = some M)
    (hgM : (getSig (advanceAll inp.redT st.sigs) M).phase = Phase.green) :
    (tick cfg st inp).1.car_speed = 15 ∧
    (tick cfg st inp).1.waiting_at = none ∧
    (tick cfg st inp).1.car_x = st.car_x + 15 * (1 / 10) ∧
    (tick cfg st inp).1.sigs = advanceAll inp.redT st.sigs := by
  norm_num [tick, suggestionStep, resumeStep, hns, hgM, hw, phase_ne_gr]

theorem tick_wait_red (cfg : Config) (st : SimState) (inp : TickIn) (M : Lab)
    (hns : nextSignal st.car_x = some M)
    (hw : st.waiting_at = some M)
    (hv : st.car_speed = 0)
    (hred : (getSig (advanceAll inp.redT st.sigs) M).phase = Phase.red) :
    (tick cfg st inp).1.car_speed = 0 ∧
    (tick cfg st inp).1.waiting_at = some M ∧
    (tick cfg st inp).1.car_x = st.car_x ∧
    (tick cfg st inp).1.sigs = advanceAll inp.redT st.sigs := by
  by_cases hd : sigX M - st.car_x ≤ 40 <;>
    simp [tick, suggestionStep, resumeStep, hns, hw, hv, hred, hd, phase_ne_rg]

theorem tick_other_move (cfg : Config) (st : SimState) (inp : TickIn) (L : Lab)
    (hns : nextSignal st.car_x = some L)
    (hw : st.waiting_at = none)
    (hcond : ¬ ((getSig (advanceAll inp.redT st.sigs) L).phase = Phase.red ∧
      sigX L - st.car_x ≤ 40))
    (hg : ¬ (getSig (advanceAll inp.redT st.sigs) L).phase = Phase.green) :
    (tick cfg st inp).1.car_speed = st.car_speed ∧
    (tick cfg st inp).1.waiting_at = none ∧
    (tick cfg st inp).1.car_x =
      (if 0 < st.car_speed then st.car_x + st.car_speed * (1 / 10)
       else st.car_x) ∧
    (tick cfg st inp).1.sigs = advanceAll inp.redT st.sigs := by
  have hcond2 : ¬ ((getSig (advanceAll inp.redT st.sigs) L).phase = Phase.red ∧
      sigX L ≤ 40 + st.car_x) := by
    intro hc
    exact hcond ⟨hc.1, by linarith [hc.2]⟩
  simp [tick, suggestionStep, resumeStep, hns, hw, hcond2, hg]

/-- C3 (amended): the speed-range invariant — speed in
`[sim_min_speed, sim_max_speed]` while Moving and exactly 0 while waiting
— holds at every tick provided the configuration additionally satisfies
`sim_min_speed ≤ 15 ≤ sim_max_speed`, because the resume-after-red
transition (src/app.py line 170) sets the fixed speed 15 regardless of
the configured bounds: the invariant holds initially whenever
`min ≤ initial ≤ max` and is preserved by every tick.  (Without the extra
condition it fails at the resume transition; see the counterexample.) -/
theorem C3_speed_invariant (cfg : Config) (st : SimState) (inp : TickIn)
    (h15a : cfg.sim_min_speed ≤ 15) (h15b : (15 : ℚ) ≤ cfg.sim_max_speed)
    (hinv : SpeedInv cfg st) :
    SpeedInv cfg (tick cfg st inp).1 ∧
    (∀ (ph : Lab → Phase) (tm : Lab → ℤ),
      cfg.sim_min_speed ≤ cfg.sim_initial_speed →
      cfg.sim_initial_speed ≤ cfg.sim_max_speed →
      SpeedInv cfg (initState cfg ph tm)) := by
  constructor
  · rcases hns : nextSignal st.car_x with _ | L
    · rcases hw : st.waiting_at with _ | M
      · obtain ⟨hv, hwt, hx, hsg⟩ := tick_nosig_move cfg st inp hns hw
        constructor
        · intro _
          rw [hv]
          exact hinv.1 hw
        · intro M hM
          rw [hwt] at hM
          exact absurd hM (by simp)
      · exact absurd (hinv.2 M hw).2.1 (by rw [hns]; simp)
    · by_cases hstop : (getSig (advanceAll inp.redT st.sigs) L).phase =
          Phase.red ∧ sigX L - st.car_x ≤ 40
      · obtain ⟨hv, hwt, hx, hsg⟩ := tick_stop cfg st inp L hns hstop.1 hstop.2
        constructor
        · intro h0
          rw [hwt] at h0
          exact absurd h0 (by simp)
        · intro M hM
          rw [hwt] at hM
          obtain rfl : L = M := Option.some.inj hM
          refine ⟨hv, ?_, ?_⟩
          · rw [hx]
            exact hns
          · rw [hsg]
            exact hstop.1
      · by_cases hgreen : (getSig (advanceAll inp.redT st.sigs) L).phase =
            Phase.green
        · rcases hw : st.waiting_at with _ | M
          · obtain ⟨hv, hwt, hx, hsg⟩ := tick_green_move cfg st inp L hns hgreen hw
            constructor
            · intro _
              rw [hv]
              exact greenAdjust_bounds _ _ _ _ (le_trans h15a h15b)
                (hinv.1 hw).1 (hinv.1 hw).2
            · intro M hM
              rw [hwt] at hM
              exact absurd hM (by simp)
          · obtain ⟨hv0, hnsM, hredM⟩ := hinv.2 M hw
            have hLM : L = M := by
              rw [hns] at hnsM
              exact Option.some.inj hnsM
            subst hLM
            obtain ⟨hv, hwt, hx, hsg⟩ := tick_resume cfg st inp L hns hw hgreen
            constructor
            · intro _
              rw [hv]
              exact ⟨h15a, h15b⟩
            · intro M2 hM2
              rw [hwt] at hM2
              exact absurd hM2 (by simp)
        · rcases hw : st.waiting_at with _ | M
          · obtain ⟨hv, hwt, hx, hsg⟩ :=
              tick_other_move cfg st inp L hns hw hstop hgreen
            constructor
            · intro _
              rw [hv]
              exact hinv.1 hw
            · intro M hM
              rw [hwt] at hM
              exact absurd hM (by simp)
          · obtain ⟨hv0, hnsM, hredM⟩ := hinv.2 M hw
            have hLM : L = M := by
              rw [hns] at hnsM
              exact Option.some.inj hnsM
            subst hLM
            have hred2 : (getSig (advanceAll inp.redT st.sigs) L).phase =
                Phase.red := by
              rw [getSig_advanceAll]
              rcases advanceSig_phase (inp.redT L) (getSig st.sigs L) with h | h
              · rw [h, hredM]
              · rw [hredM] at h
                rw [getSig_advanceAll] at hgreen
                exact absurd h hgreen
            obtain ⟨hv, hwt, hx, hsg⟩ :=
              tick_wait_red cfg st inp L hns hw hv0 hred2
            constructor
            · intro h0
              rw [hwt] at h0
              exact absurd h0 (by simp)
            · intro M2 hM2
              rw [hwt] at hM2
              obtain rfl : L = M2 := Option.some.inj hM2
              refine ⟨hv, ?_, ?_⟩
              · rw [hx]
                exact hns
              · rw [hsg]
                exact hred2
  · intro ph tm hi1 hi2
    constructor
    · intro _
      exact ⟨hi1, hi2⟩
    · intro M hM
      exact absurd hM (by simp [initState])

/-- Witness for C3 (amended) at configuration ⟨25, 10, 60⟩ from the
initial state (all red, timers 45): the invariant is preserved by the
first tick. -/
theorem C3_witness :
    SpeedInv ⟨25, 10, 60⟩
      (tick ⟨25, 10, 60⟩
        (initState ⟨25, 10, 60⟩ (fun _ => Phase.red) (fun _ => 45))
        ⟨fun _ => 30, false, 0⟩).1 :=
  (C3_speed_invariant ⟨25, 10, 60⟩
    (initState ⟨25, 10, 60⟩ (fun _ => Phase.red) (fun _ => 45))
    ⟨fun _ => 30, false, 0⟩ (by norm_num) (by norm_num)
    (by constructor
        · intro _
          exact ⟨by norm_num [initState], by norm_num [initState]⟩
        · intro M hM
          exact absurd hM (by simp [initState]))).1

/-- C5: the vehicle state machine steps as specified
(src/app.py lines 151-154 and 167-170): while Moving, if the upcoming
signal L is Red (after this tick's timer update) and within 40 distance
units, the tick ends WaitingAtSignal L with speed 0; and while
WaitingAtSignal L (the signal ahead), if L's phase has become Green the
tick ends Moving with speed 15. -/
theorem C5_state_machine (cfg : Config) (st : SimState) (inp : TickIn)
    (L : Lab) :
    (st.waiting_at = none → nextSignal st.car_x = some L →
      (getSig (advanceAll inp.redT st.sigs) L).phase = Phase.red →
      sigX L - st.car_x ≤ 40 →
      (tick cfg st inp).1.waiting_at = some L ∧
      (tick cfg st inp).1.car_speed = 0) ∧
    (st.waiting_at = some L → nextSignal st.car_x = some L →
      (getSig (advanceAll inp.redT st.sigs) L).phase = Phase.green →
      (tick cfg st inp).1.waiting_at = none ∧
      (tick cfg st inp).1.car_speed = 15) := by
  constructor
  · intro _ hns hred hd
    obtain ⟨hv, hwt, _, _⟩ := tick_stop cfg st inp L hns hred hd
    exact ⟨hwt, hv⟩
  · intro hw hns hg
    obtain ⟨hv, hwt, _, _⟩ := tick_resume cfg st inp L hns hw hg
    exact ⟨hwt, hv⟩

/-- Witness for C5: stopping at red signal B from position 120
(distance 30 ≤ 40, B red with timer 30 after the update). -/
theorem C5_witness :
    (tick ⟨25, 10, 60⟩
        ⟨⟨⟨Phase.red, 31⟩, ⟨Phase.red, 31⟩, ⟨Phase.red, 31⟩, ⟨Phase.red, 31⟩,
          ⟨Phase.red, 31⟩⟩, 120, 25, none, Advice.maintain, 0, none, none⟩
        ⟨fun _ => 30, false, 0⟩).1.waiting_at = some Lab.B ∧
    (tick ⟨25, 10, 60⟩
        ⟨⟨⟨Phase.red, 31⟩, ⟨Phase.red, 31⟩, ⟨Phase.red, 31⟩, ⟨Phase.red, 31⟩,
          ⟨Phase.red, 31⟩⟩, 120, 25, none, Advice.maintain, 0, none, none⟩
        ⟨fun _ => 30, false, 0⟩).1.car_speed = 0 :=
  (C5_state_machine ⟨25, 10, 60⟩
    ⟨⟨⟨Phase.red, 31⟩, ⟨Phase.red, 31⟩, ⟨Phase.red, 31⟩, ⟨Phase.red, 31⟩,
      ⟨Phase.red, 31⟩⟩, 120, 25, none, Advice.maintain, 0, none, none⟩
    ⟨fun _ => 30, false, 0⟩ Lab.B).1 rfl (by norm_num [nextSignal]) rfl
    (by norm_num [sigX])

/-- Any two alert timestamps fired from a time-ordered prediction trace
are separated by at least the 5-second debounce window; moreover when the
state records a last alert at time `t0`, every fired timestamp is at
least `t0 + 5`. -/
theorem fireTimes_sep (l : List (PredPhase × ℚ)) : ∀ s : AlertSt,
    (l.map Prod.snd).Pairwise (· ≤ ·) →
    (∀ t0, s.lastTime = some t0 → ∀ u ∈ fireTimes s l, t0 + 5 ≤ u) ∧
    (fireTimes s l).Pairwise (fun a b => a + 5 ≤ b) := by
  induction l with
  | nil =>
    intro s _
    constructor
    · intro t0 _ u hu
      simp [fireTimes] at hu
    · simp [fireTimes]
  | cons e rest ih =>
    intro s hsort
    obtain ⟨p, t⟩ := e
    rw [List.map_cons, List.pairwise_cons] at hsort
    obtain ⟨ht, hrest⟩ := hsort
    by_cases hf : alertFired s p t = true
    · have hfire_eq : fireTimes s ((p, t) :: rest) =
          t :: fireTimes ⟨some p, some t⟩ rest := by
        simp [fireTimes, alertStep, hf]
      obtain ⟨ihlb, ihpw⟩ := ih ⟨some p, some t⟩ hrest
      have hlow : ∀ u ∈ fireTimes (⟨some p, some t⟩ : AlertSt) rest,
          t + 5 ≤ u := ihlb t rfl
      have hgap : ∀ t0, s.lastTime = some t0 → t0 + 5 ≤ t := by
        intro t0 ht0
        have h2 : shouldTrigger s.lastTime t = true := by
          have h3 := hf
          unfold alertFired at h3
          simp only [Bool.and_eq_true] at h3
          exact h3.2
        rw [ht0] at h2
        simp [shouldTrigger] at h2
        linarith
      constructor
      · intro t0 ht0 u hu
        rw [hfire_eq] at hu
        rcases List.mem_cons.mp hu with rfl | hu2
        · exact hgap t0 ht0
        · have := hlow u hu2
          have := hgap t0 ht0
          linarith
      · rw [hfire_eq]
        exact List.pairwise_cons.mpr ⟨hlow, ihpw⟩
    · have hf2 : alertFired s p t = false := by
        simpa using hf
      have hfire_eq : fireTimes s ((p, t) :: rest) = fireTimes s rest := by
        simp [fireTimes, alertStep, hf2]
      obtain ⟨ihlb, ihpw⟩ := ih s hrest
      rw [hfire_eq]
      exact ⟨ihlb, ihpw⟩

/-- C7: with a last fired alert recorded (phase `p` at time `t`), the
voice-alert trigger of src/app.py lines 199 and 217-218 fires at a tick
iff the tick's predicted phase differs from `p` and at least 5 seconds
have elapsed since `t`; on firing, the new predicted phase and timestamp
are recorded; consequently, along any run with nondecreasing wall-clock
readings, any two fired alerts — in particular two for the same
predicted-phase value — are at least the 5-second debounce window
apart. -/
theorem C7_alert_gate :
    (∀ (p : PredPhase) (t : ℚ) (pred : PredPhase) (now : ℚ),
      ((alertStep ⟨some p, some t⟩ pred now).1 = true ↔
        (pred ≠ p ∧ 5 ≤ now - t))) ∧
    (∀ (s : AlertSt) (pred : PredPhase) (now : ℚ),
      (alertStep s pred now).1 = true →
      (alertStep s pred now).2 = ⟨some pred, some now⟩) ∧
    (∀ l : List (PredPhase × ℚ), (l.map Prod.snd).Pairwise (· ≤ ·) →
      (fireTimes alertInit l).Pairwise (fun a b => a + 5 ≤ b)) := by
  refine ⟨fun p t pred now => ?_, fun s pred now hf => ?_, fun l hl => ?_⟩
  · simp only [alertStep, alertFired, shouldTrigger, Bool.and_eq_true,
      decide_eq_true_eq, ne_eq, Option.some.injEq]
    constructor
    · intro ⟨h1, h2⟩
      exact ⟨fun he => h1 (he.symm), h2⟩
    · intro ⟨h1, h2⟩
      exact ⟨fun he => h1 (he.symm), h2⟩
  · have hf2 : alertFired s pred now = true := hf
    simp [alertStep, hf2]
  · exact (fireTimes_sep l alertInit hl).2

/-- Witness for C7: a three-entry trace — alert fires at time 0, a changed
prediction at time 3 is debounced, a changed prediction at time 7 fires —
yielding 5-separated fire times, from sorted timestamps. -/
theorem C7_witness :
    (fireTimes alertInit
      [(PredPhase.ph Phase.red, 0), (PredPhase.ph Phase.green, 3),
       (PredPhase.ph Phase.green, 7)]).Pairwise (fun a b => a + 5 ≤ b) :=
  C7_alert_gate.2.2
    [(PredPhase.ph Phase.red, 0), (PredPhase.ph Phase.green, 3),
     (PredPhase.ph Phase.green, 7)]
    (by norm_num [List.pairwise_cons])

/-! ## Run-level helpers for the termination claim -/

theorem advanceSig_tickdown (r : ℤ) (s : SigSt) (h : 2 ≤ s.timer) :
    advanceSig r s = ⟨s.phase, s.timer - 1⟩ := by
  unfold advanceSig
  rw [if_neg (by omega)]

theorem advanceSig_red_expire (r : ℤ) (s : SigSt) (hp : s.phase = Phase.red)
    (h : s.timer ≤ 1) :
    advanceSig r s = ⟨Phase.green, 45⟩ := by
  unfold advanceSig
  rw [if_pos (by omega), hp]

theorem timerInv_advance (rt : Lab → ℤ) (g : Sigs) (hg : TimerInv g)
    (hrt : ∀ L, 30 ≤ rt L ∧ rt L ≤ 60) : TimerInv (advanceAll rt g) := by
  intro L
  rw [getSig_advanceAll]
  obtain ⟨h1, h60⟩ := hg L
  obtain ⟨hr30, hr60⟩ := hrt L
  rcases hs : getSig g L with ⟨p, t⟩
  rw [hs] at h1 h60
  dsimp only at h1 h60
  unfold advanceSig
  dsimp only
  split_ifs with ht
  · cases p <;> simp <;> omega
  · constructor
    · dsimp only
      omega
    · intro hp
      dsimp only at hp ⊢
      have := h60 hp
      omega

theorem getSig_init (ph : Lab → Phase) (tm : Lab → ℤ) (L : Lab) :
    getSig (init_traffic_lights ph tm) L =
      ⟨ph L, if ph L ≠ Phase.yellow then tm L else 5⟩ := by
  cases L <;> rfl

theorem run_add (cfg : Config) (st : SimState) (ins : ℕ → TickIn)
    (k m : ℕ) :
    run cfg st ins (k + m) =
      run cfg (run cfg st ins k) (fun i => ins (i + k)) m := by
  induction k generalizing st ins with
  | zero =>
    rw [Nat.zero_add]
    rfl
  | succ k ih =>
    rw [Nat.succ_add]
    show run cfg (tick cfg st (ins 0)).1 (fun i => ins (i + 1)) (k + m) = _
    rw [ih]
    rfl

theorem run_succ_back (cfg : Config) (st : SimState) (ins : ℕ → TickIn)
    (n : ℕ) :
    run cfg st ins (n + 1) = (tick cfg (run cfg st ins n) (ins n)).1 := by
  rw [run_add cfg st ins n 1]
  show (tick cfg (run cfg st ins n) (ins (0 + n))).1 = _
  rw [Nat.zero_add]

theorem validins_shift (ins : ℕ → TickIn) (k : ℕ) (h : ValidIns ins) :
    ValidIns (fun i => ins (i + k)) :=
  fun i L => h (i + k) L

theorem tick_move (cfg : Config) (st : SimState) (inp : TickIn) :
    (0 < (tick cfg st inp).1.car_speed →
      (tick cfg st inp).1.car_x =
        st.car_x + (tick cfg st inp).1.car_speed * (1 / 10)) ∧
    ((tick cfg st inp).1.car_speed = 0 →
      (tick cfg st inp).1.car_x = st.car_x) := by
  have hx : (tick cfg st inp).1.car_x =
      (if 0 < (tick cfg st inp).1.car_speed then
        st.car_x + (tick cfg st inp).1.car_speed * (1 / 10)
       else st.car_x) := rfl
  constructor
  · intro h
    rw [hx, if_pos h]
  · intro h
    rw [hx, if_neg (by rw [h]; exact lt_irrefl 0)]

theorem runInv_tick (cfg : Config) (st : SimState) (inp : TickIn)
    (hc : CfgTen cfg) (hrt : ∀ L, 30 ≤ inp.redT L ∧ inp.redT L ≤ 60)
    (hinv : RunInv st) : RunInv (tick cfg st inp).1 := by
  obtain ⟨hx0, hmv, hwi, hti⟩ := hinv
  have hti2 : TimerInv (advanceAll inp.redT st.sigs) :=
    timerInv_advance inp.redT st.sigs hti hrt
  rcases hns : nextSignal st.car_x with _ | L
  · rcases hw : st.waiting_at with _ | M
    · obtain ⟨hv, hwt, hx, hsg⟩ := tick_nosig_move cfg st inp hns hw
      have h10 := hmv hw
      refine ⟨?_, ?_, ?_, ?_⟩
      · rw [hx, if_pos (by linarith)]
        have : 0 ≤ st.car_speed * (1 / 10) := by positivity
        linarith
      · intro _
        rw [hv]
        exact h10
      · intro M hM
        rw [hwt] at hM
        exact absurd hM (by simp)
      · rw [hsg]
        exact hti2
    · exact absurd (hwi M hw).2.1 (by rw [hns]; simp)
  · by_cases hstop : (getSig (advanceAll inp.redT st.sigs) L).phase =
        Phase.red ∧ sigX L - st.car_x ≤ 40
    · obtain ⟨hv, hwt, hx, hsg⟩ := tick_stop cfg st inp L hns hstop.1 hstop.2
      refine ⟨by rw [hx]; exact hx0, ?_, ?_, by rw [hsg]; exact hti2⟩
      · intro h0
        rw [hwt] at h0
        exact absurd h0 (by simp)
      · intro M hM
        rw [hwt] at hM
        obtain rfl : L = M := Option.some.inj hM
        exact ⟨hv, by rw [hx]; exact hns, by rw [hsg]; exact hstop.1⟩
    · by_cases hgreen : (getSig (advanceAll inp.redT st.sigs) L).phase =
          Phase.green
      · rcases hw : st.waiting_at with _ | M
        · obtain ⟨hv, hwt, hx, hsg⟩ := tick_green_move cfg st inp L hns hgreen hw
          have h10 : 10 ≤ (greenAdjust cfg.sim_min_speed cfg.sim_max_speed
              st.car_speed inp.coin).2 :=
            greenAdjust_ten _ _ _ _ hc.1 hc.2 (hmv hw)
          refine ⟨?_, ?_, ?_, by rw [hsg]; exact hti2⟩
          · rw [hx, if_pos (by linarith)]
            have : 0 ≤ (greenAdjust cfg.sim_min_speed cfg.sim_max_speed
                st.car_speed inp.coin).2 * (1 / 10) := by
              have : (0:ℚ) ≤ (greenAdjust cfg.sim_min_speed cfg.sim_max_speed
                  st.car_speed inp.coin).2 := by linarith
              positivity
            linarith
          · intro _
            rw [hv]
            exact h10
          · intro M hM
            rw [hwt] at hM
            exact absurd hM (by simp)
        · obtain ⟨hv0, hnsM, hredM⟩ := hwi M hw
          have hLM : L = M := by
            rw [hns] at hnsM
            exact Option.some.inj hnsM
          subst hLM
          obtain ⟨hv, hwt, hx, hsg⟩ := tick_resume cfg st inp L hns hw hgreen
          refine ⟨?_, ?_, ?_, by rw [hsg]; exact hti2⟩
          · rw [hx]
            linarith
          · intro _
            rw [hv]
            norm_num
          · intro M2 hM2
            rw [hwt] at hM2
            exact absurd hM2 (by simp)
      · rcases hw : st.waiting_at with _ | M
        · obtain ⟨hv, hwt, hx, hsg⟩ :=
            tick_other_move cfg st inp L hns hw hstop hgreen
          have h10 := hmv hw
          refine ⟨?_, ?_, ?_, by rw [hsg]; exact hti2⟩
          · rw [hx, if_pos (by linarith)]
            have : 0 ≤ st.car_speed * (1 / 10) := by positivity
            linarith
          · intro _
            rw [hv]
            exact h10
          · intro M hM
            rw [hwt] at hM
            exact absurd hM (by simp)
        · obtain ⟨hv0, hnsM, hredM⟩ := hwi M hw
          have hLM : L = M := by
            rw [hns] at hnsM
            exact Option.some.inj hnsM
          subst hLM
          have hred2 : (getSig (advanceAll inp.redT st.sigs) L).phase =
              Phase.red := by
            rw [getSig_advanceAll]
            rcases advanceSig_phase (inp.redT L) (getSig st.sigs L) with h | h
            · rw [h, hredM]
            · rw [hredM] at h
              rw [getSig_advanceAll] at hgreen
              exact absurd h hgreen
          obtain ⟨hv, hwt, hx, hsg⟩ :=
            tick_wait_red cfg st inp L hns hw hv0 hred2
          refine ⟨by rw [hx]; exact hx0, ?_, ?_, by rw [hsg]; exact hti2⟩
          · intro h0
            rw [hwt] at h0
            exact absurd h0 (by simp)
          · intro M2 hM2
            rw [hwt] at hM2
            obtain rfl : L = M2 := Option.some.inj hM2
            exact ⟨hv, by rw [hx]; exact hns, by rw [hsg]; exact hred2⟩

theorem runInv_init (cfg : Config) (ph : Lab → Phase) (tm : Lab → ℤ)
    (h10 : 10 ≤ cfg.sim_initial_speed)
    (htm : ∀ L, 10 ≤ tm L ∧ tm L ≤ 45) :
    RunInv (initState cfg ph tm) := by
  refine ⟨le_refl 0, fun _ => h10, ?_, ?_⟩
  · intro M hM
    exact absurd hM (by simp [initState])
  · intro L
    have he : getSig (initState cfg ph tm).sigs L =
        ⟨ph L, if ph L ≠ Phase.yellow then tm L else 5⟩ := getSig_init ph tm L
    rw [he]
    obtain ⟨ht1, ht2⟩ := htm L
    constructor
    · dsimp only
      split_ifs <;> omega
    · intro _
      dsimp only
      split_ifs <;> omega

theorem runInv_run (cfg : Config) (st : SimState) (ins : ℕ → TickIn) (n : ℕ)
    (hc : CfgTen cfg) (hins : ValidIns ins) (hinv : RunInv st) :
    RunInv (run cfg st ins n) := by
  induction n generalizing st ins with
  | zero => exact hinv
  | succ n ih =>
    show RunInv (run cfg (tick cfg st (ins 0)).1 (fun i => ins (i + 1)) n)
    exact ih (tick cfg st (ins 0)).1 (fun i => ins (i + 1))
      (validins_shift ins 1 hins) (runInv_tick cfg st (ins 0) hc (hins 0) hinv)

theorem wait_progress (cfg : Config) (hc : CfgTen cfg) :
    ∀ (n : ℕ) (st : SimState) (ins : ℕ → TickIn) (L : Lab),
    RunInv st → ValidIns ins → st.waiting_at = some L →
    ((getSig st.sigs L).timer).toNat ≤ n →
    ∃ k, k ≤ n ∧ (run cfg st ins k).waiting_at = none ∧
      (run cfg st ins k).car_speed = 15 ∧
      st.car_x + 1 ≤ (run cfg st ins k).car_x ∧
      RunInv (run cfg st ins k) := by
  intro n
  induction n with
  | zero =>
    intro st ins L hinv _ hw htn
    have ht1 := (hinv.2.2.2 L).1
    exfalso
    omega
  | succ n ih =>
    intro st ins L hinv hins hw htn
    obtain ⟨hv0, hns, hred⟩ := hinv.2.2.1 L hw
    have ht1 := (hinv.2.2.2 L).1
    by_cases hle : (getSig st.sigs L).timer ≤ 1
    · have hg : (getSig (advanceAll (ins 0).redT st.sigs) L).phase =
          Phase.green := by
        rw [getSig_advanceAll, advanceSig_red_expire _ _ hred hle]
      obtain ⟨hv, hwt, hx, hsg⟩ := tick_resume cfg st (ins 0) L hns hw hg
      refine ⟨1, by omega, ?_, ?_, ?_, ?_⟩
      · show (tick cfg st (ins 0)).1.waiting_at = none
        exact hwt
      · show (tick cfg st (ins 0)).1.car_speed = 15
        exact hv
      · show st.car_x + 1 ≤ (tick cfg st (ins 0)).1.car_x
        rw [hx]
        linarith
      · show RunInv (tick cfg st (ins 0)).1
        exact runInv_tick cfg st (ins 0) hc (hins 0) hinv
    · have hred2 : (getSig (advanceAll (ins 0).redT st.sigs) L).phase =
          Phase.red := by
        rw [getSig_advanceAll, advanceSig_tickdown _ _ (by omega)]
        exact hred
      obtain ⟨hv, hwt, hx, hsg⟩ := tick_wait_red cfg st (ins 0) L hns hw hv0 hred2
      have hinv1 : RunInv (tick cfg st (ins 0)).1 :=
        runInv_tick cfg st (ins 0) hc (hins 0) hinv
      have htim1 : ((getSig (tick cfg st (ins 0)).1.sigs L).timer).toNat ≤ n := by
        rw [hsg, getSig_advanceAll, advanceSig_tickdown _ _ (by omega)]
        dsimp only
        omega
      obtain ⟨k', hk', ha, hb, hcx, hinv'⟩ := ih (tick cfg st (ins 0)).1
        (fun i => ins (i + 1)) L hinv1 (validins_shift ins 1 hins) hwt htim1
      refine ⟨k' + 1, by omega, ha, hb, ?_, hinv'⟩
      show st.car_x + 1 ≤
        (run cfg (tick cfg st (ins 0)).1 (fun i => ins (i + 1)) k').car_x
      rw [← hx]
      exact hcx

theorem progress_61 (cfg : Config) (st : SimState) (ins : ℕ → TickIn)
    (hc : CfgTen cfg) (hins : ValidIns ins) (hinv : RunInv st) :
    ∃ k, k ≤ 61 ∧ st.car_x + 1 ≤ (run cfg st ins k).car_x ∧
      RunInv (run cfg st ins k) := by
  rcases hw : st.waiting_at with _ | L
  · have h10 := hinv.2.1 hw
    rcases hns : nextSignal st.car_x with _ | L
    · obtain ⟨hv, hwt, hx, hsg⟩ := tick_nosig_move cfg st (ins 0) hns hw
      refine ⟨1, by omega, ?_, ?_⟩
      · show st.car_x + 1 ≤ (tick cfg st (ins 0)).1.car_x
        rw [hx, if_pos (by linarith)]
        linarith
      · show RunInv (tick cfg st (ins 0)).1
        exact runInv_tick cfg st (ins 0) hc (hins 0) hinv
    · by_cases hstop : (getSig (advanceAll (ins 0).redT st.sigs) L).phase =
          Phase.red ∧ sigX L - st.car_x ≤ 40
      · obtain ⟨hv, hwt, hx, hsg⟩ :=
          tick_stop cfg st (ins 0) L hns hstop.1 hstop.2
        have hinv1 : RunInv (tick cfg st (ins 0)).1 :=
          runInv_tick cfg st (ins 0) hc (hins 0) hinv
        have hred1 : (getSig (tick cfg st (ins 0)).1.sigs L).phase =
            Phase.red := by
          rw [hsg]
          exact hstop.1
        have h60 := (hinv1.2.2.2 L).2 hred1
        obtain ⟨k', hk', _, _, hcx, hinv'⟩ := wait_progress cfg hc 60
          (tick cfg st (ins 0)).1 (fun i => ins (i + 1)) L hinv1
          (validins_shift ins 1 hins) hwt (by omega)
        refine ⟨k' + 1, by omega, ?_, hinv'⟩
        show st.car_x + 1 ≤
          (run cfg (tick cfg st (ins 0)).1 (fun i => ins (i + 1)) k').car_x
        rw [← hx]
        exact hcx
      · by_cases hgreen : (getSig (advanceAll (ins 0).redT st.sigs) L).phase =
            Phase.green
        · obtain ⟨hv, hwt, hx, hsg⟩ :=
            tick_green_move cfg st (ins 0) L hns hgreen hw
          have hga : 10 ≤ (greenAdjust cfg.sim_min_speed cfg.sim_max_speed
              st.car_speed (ins 0).coin).2 :=
            greenAdjust_ten _ _ _ _ hc.1 hc.2 h10
          refine ⟨1, by omega, ?_, ?_⟩
          · show st.car_x + 1 ≤ (tick cfg st (ins 0)).1.car_x
            rw [hx, if_pos (by linarith)]
            linarith
          · show RunInv (tick cfg st (ins 0)).1
            exact runInv_tick cfg st (ins 0) hc (hins 0) hinv
        · obtain ⟨hv, hwt, hx, hsg⟩ :=
            tick_other_move cfg st (ins 0) L hns hw hstop hgreen
          refine ⟨1, by omega, ?_, ?_⟩
          · show st.car_x + 1 ≤ (tick cfg st (ins 0)).1.car_x
            rw [hx, if_pos (by linarith)]
            linarith
          · show RunInv (tick cfg st (ins 0)).1
            exact runInv_tick cfg st (ins 0) hc (hins 0) hinv
  · have hred := (hinv.2.2.1 L hw).2.2
    have ht60 := (hinv.2.2.2 L).2 hred
    obtain ⟨k, hk, _, _, hcx, hinv'⟩ :=
      wait_progress cfg hc 60 st ins L hinv hins hw (by omega)
    exact ⟨k, by omega, hcx, hinv'⟩

theorem run_gain (cfg : Config) (hc : CfgTen cfg) :
    ∀ (N : ℕ) (st : SimState) (ins : ℕ → TickIn), RunInv st → ValidIns ins →
    ∃ n, st.car_x + (N : ℚ) ≤ (run cfg st ins n).car_x ∧
      RunInv (run cfg st ins n) := by
  intro N
  induction N with
  | zero =>
    intro st ins hinv _
    exact ⟨0, by simp [run], hinv⟩
  | succ N ih =>
    intro st ins hinv hins
    obtain ⟨k, _, hx1, hinv1⟩ := progress_61 cfg st ins hc hins hinv
    obtain ⟨m, hxN, hinvN⟩ := ih (run cfg st ins k) (fun i => ins (i + k))
      hinv1 (validins_shift ins k hins)
    refine ⟨k + m, ?_, ?_⟩
    · rw [run_add cfg st ins k m]
      push_cast
      push_cast at hxN
      linarith
    · rw [run_add cfg st ins k m]
      exact hinvN

/-- C10: for every slider-reachable configuration (all three speed
parameters at least 10 km/h) and every run from the initial state, the
loop terminates: at every tick the speed is at least 10 while Moving and
exactly 0 only while waiting at a signal that is Red; every such wait
ends within the signal's remaining timer (at most 60 ticks), after which
the vehicle is Moving at the resume speed 15; whenever the post-tick
speed is positive the position advanced by exactly speed × 0.1 ≥ 1 this
tick (and did not move when the speed is 0); and the position eventually
exceeds the route length 1100, ending the while-loop of
src/app.py line 82. -/
theorem C10_termination (cfg : Config) (ph : Lab → Phase) (tm : Lab → ℤ)
    (ins : ℕ → TickIn)
    (hcfg : 10 ≤ cfg.sim_initial_speed ∧ 10 ≤ cfg.sim_min_speed ∧
      10 ≤ cfg.sim_max_speed)
    (htm : ∀ L, 10 ≤ tm L ∧ tm L ≤ 45)
    (hins : ValidIns ins) :
    (∀ n,
      ((run cfg (initState cfg ph tm) ins n).waiting_at = none →
        10 ≤ (run cfg (initState cfg ph tm) ins n).car_speed) ∧
      (∀ L, (run cfg (initState cfg ph tm) ins n).waiting_at = some L →
        (run cfg (initState cfg ph tm) ins n).car_speed = 0 ∧
        (getSig (run cfg (initState cfg ph tm) ins n).sigs L).phase =
          Phase.red ∧
        (getSig (run cfg (initState cfg ph tm) ins n).sigs L).timer ≤ 60 ∧
        ∃ k, k ≤ ((getSig (run cfg (initState cfg ph tm) ins n).sigs
            L).timer).toNat ∧
          (run cfg (initState cfg ph tm) ins (n + k)).waiting_at = none ∧
          (run cfg (initState cfg ph tm) ins (n + k)).car_speed = 15) ∧
      (0 < (run cfg (initState cfg ph tm) ins (n + 1)).car_speed →
        (run cfg (initState cfg ph tm) ins (n + 1)).car_x =
          (run cfg (initState cfg ph tm) ins n).car_x +
            (run cfg (initState cfg ph tm) ins (n + 1)).car_speed * (1 / 10) ∧
        (run cfg (initState cfg ph tm) ins n).car_x + 1 ≤
          (run cfg (initState cfg ph tm) ins (n + 1)).car_x) ∧
      ((run cfg (initState cfg ph tm) ins (n + 1)).car_speed = 0 →
        (run cfg (initState cfg ph tm) ins (n + 1)).car_x =
          (run cfg (initState cfg ph tm) ins n).car_x)) ∧
    (∃ n, 1100 < (run cfg (initState cfg ph tm) ins n).car_x) := by
  have hc : CfgTen cfg := ⟨hcfg.2.1, hcfg.2.2⟩
  have hinv0 : RunInv (initState cfg ph tm) :=
    runInv_init cfg ph tm hcfg.1 htm
  have hinvn : ∀ n, RunInv (run cfg (initState cfg ph tm) ins n) :=
    fun n => runInv_run cfg (initState cfg ph tm) ins n hc hins hinv0
  constructor
  · intro n
    refine ⟨(hinvn n).2.1, ?_, ?_, ?_⟩
    · intro L hw
      obtain ⟨hv0, _, hred⟩ := (hinvn n).2.2.1 L hw
      have h60 := ((hinvn n).2.2.2 L).2 hred
      refine ⟨hv0, hred, h60, ?_⟩
      obtain ⟨k, hk, ha, hb, _, _⟩ := wait_progress cfg hc
        (((getSig (run cfg (initState cfg ph tm) ins n).sigs L).timer).toNat)
        (run cfg (initState cfg ph tm) ins n) (fun i => ins (i + n)) L
        (hinvn n) (validins_shift ins n hins) hw (le_refl _)
      refine ⟨k, hk, ?_, ?_⟩
      · rw [run_add cfg (initState cfg ph tm) ins n k]
        exact ha
      · rw [run_add cfg (initState cfg ph tm) ins n k]
        exact hb
    · intro hpos
      have h10 : 10 ≤ (run cfg (initState cfg ph tm) ins (n + 1)).car_speed := by
        rcases hw1 : (run cfg (initState cfg ph tm) ins (n + 1)).waiting_at
          with _ | M
        · exact (hinvn (n + 1)).2.1 hw1
        · have hz := ((hinvn (n + 1)).2.2.1 M hw1).1
          rw [hz] at hpos
          exact absurd hpos (lt_irrefl 0)
      rw [run_succ_back cfg (initState cfg ph tm) ins n] at hpos h10 ⊢
      have hxeq := (tick_move cfg (run cfg (initState cfg ph tm) ins n)
        (ins n)).1 hpos
      refine ⟨hxeq, ?_⟩
      rw [hxeq]
      linarith
    · intro h0
      rw [run_succ_back cfg (initState cfg ph tm) ins n] at h0 ⊢
      exact (tick_move cfg (run cfg (initState cfg ph tm) ins n) (ins n)).2 h0
  · obtain ⟨n, hx, _⟩ := run_gain cfg hc 1101 (initState cfg ph tm) ins
      hinv0 hins
    refine ⟨n, ?_⟩
    have hz : (initState cfg ph tm).car_x = 0 := rfl
    rw [hz] at hx
    push_cast at hx
    linarith

/-- Witness for C10 at configuration ⟨25, 10, 60⟩, all signals initially
red with timer 10, constant inputs: the run reaches position beyond
1100. -/
theorem C10_witness :
    ∃ n, 1100 < (run ⟨25, 10, 60⟩
      (initState ⟨25, 10, 60⟩ (fun _ => Phase.red) (fun _ => 10))
      (fun _ => ⟨fun _ => 30, false, 0⟩) n).car_x :=
  (C10_termination ⟨25, 10, 60⟩ (fun _ => Phase.red) (fun _ => 10)
    (fun _ => ⟨fun _ => 30, false, 0⟩)
    ⟨by norm_num, by norm_num, by norm_num⟩
    (fun L => ⟨by norm_num, by norm_num⟩)
    (fun i L => ⟨by norm_num, by norm_num⟩)).2

end TrafficSim
